import Mathlib

/-
Verification of the peer-connection lifecycle manager of the secure_voice_chat
repository against its specification.

The definitions below are a shallow embedding of the JavaScript source:
  - client/src/utils/webrtcManager.js   (the WebRTCManager class)
  - client/src/utils/qualityMonitor.js  (QualityMonitor and AudioQualityMonitor)
  - client/src/utils/speakingDetector.js (SpeakingDetector)
  - the screen-sharing variant of WebRTCManager produced by
    update-webrtc-manager.sh (startScreenSharing and stopScreenSharing)

JavaScript numbers are modelled as rationals where fractional values occur
(RTT, loss fractions, audio levels) and as integers for timestamps; JS Maps
are modelled as association lists with the set/delete/clear semantics of the
Map class; nullable callbacks are presence flags, and invoking an absent
callback raises a TypeError, as in JS.  Side effects (stopping a track,
closing a connection, socket emissions, callback invocations) are recorded
in an explicit event trace.
-/

set_option maxHeartbeats 1600000

/-- Kind of a media track, mirroring MediaStreamTrack.kind. -/
inductive MediaKind where
  | audio
  | video
deriving DecidableEq

/-- A media track: object identity, kind, and the mutable enabled flag. -/
structure Track where
  id : Nat
  kind : MediaKind
  enabled : Bool
deriving DecidableEq

/-- A media stream is its list of tracks. -/
structure MediaStream where
  tracks : List Track
deriving DecidableEq

/-- Quality labels produced by QualityMonitor (qualityMonitor.js). -/
inductive Quality where
  | excellent
  | good
  | fair
  | poor
  | bad
  | unknown
deriving DecidableEq

/-- One tier of the quality threshold table (qualityMonitor.js, constructor). -/
structure Tier where
  packetLoss : ℚ
  rtt : ℚ
deriving DecidableEq

/-- The ordered threshold table (qualityMonitor.js, constructor); anything
worse than the poor tier is considered bad. -/
structure QualityThresholds where
  excellent : Tier
  good : Tier
  fair : Tier
  poor : Tier
deriving DecidableEq

/-- Default thresholds from the QualityMonitor constructor:
excellent: loss 0.01, rtt 150; good: 0.03, 300; fair: 0.08, 500; poor: 0.15, 1000. -/
def defaultQualityThresholds : QualityThresholds :=
  { excellent := { packetLoss := 1/100, rtt := 150 }
  , good := { packetLoss := 3/100, rtt := 300 }
  , fair := { packetLoss := 8/100, rtt := 500 }
  , poor := { packetLoss := 15/100, rtt := 1000 } }

/-- JS truthiness of a nullable number: null and 0 are falsy. -/
def jsTruthy : Option ℚ → Bool
  | none => false
  | some v => v ≠ 0

/-- The quality-label decision chain of QualityMonitor, lines 991-1011 of
qualityMonitor.js: quality stays unknown unless both rtt and packetLoss are
non-null, and is otherwise the first tier whose loss and rtt bounds both
hold, with bad as the fallthrough. -/
def determineQuality (th : QualityThresholds) (rtt packetLoss : Option ℚ) : Quality :=
  match rtt, packetLoss with
  | some r, some pl =>
    if pl ≤ th.excellent.packetLoss ∧ r ≤ th.excellent.rtt then Quality.excellent
    else if pl ≤ th.good.packetLoss ∧ r ≤ th.good.rtt then Quality.good
    else if pl ≤ th.fair.packetLoss ∧ r ≤ th.fair.rtt then Quality.fair
    else if pl ≤ th.poor.packetLoss ∧ r ≤ th.poor.rtt then Quality.poor
    else Quality.bad
  | _, _ => Quality.unknown

/-- The nominated candidate-pair record of a stats report, as far as
checkQuality reads it. -/
structure CandPair where
  currentRoundTripTime : Option ℚ
deriving DecidableEq

/-- The inbound-rtp audio record of a stats report, as far as checkQuality
reads it (fields may be undefined). -/
structure InboundRtp where
  jitter : Option ℚ
  packetsLost : Option ℚ
  packetsReceived : Option ℚ
  bytesReceived : Option ℚ
deriving DecidableEq

/-- One getStats() report, reduced to the two records checkQuality uses.
The remote-outbound-rtp record is also located by the source but never read
afterwards, so it is omitted. -/
structure StatsReport where
  candidatePair : Option CandPair
  inboundRtp : Option InboundRtp
deriving DecidableEq

/-- The persistent stats of a QualityMonitor (this.stats); the constructor
leaves bytesReceived undefined, modelled as none. -/
structure MonitorStats where
  rtt : Option ℚ
  jitter : Option ℚ
  packetLoss : Option ℚ
  bandwidth : Option ℚ
  bytesReceived : Option ℚ
  timestamp : Option ℚ
  quality : Quality
deriving DecidableEq

/-- Initial stats of a freshly constructed QualityMonitor. -/
def initialMonitorStats : MonitorStats :=
  { rtt := none, jitter := none, packetLoss := none, bandwidth := none
  , bytesReceived := none, timestamp := none, quality := Quality.unknown }

/-- RTT extraction of checkQuality: candidatePair.currentRoundTripTime is
multiplied by 1000 when truthy, else rtt stays null. -/
def rttOfReport (rep : StatsReport) : Option ℚ :=
  match rep.candidatePair with
  | some cp => if jsTruthy cp.currentRoundTripTime then cp.currentRoundTripTime.map (· * 1000) else none
  | none => none

/-- Packet-loss extraction of checkQuality: lost/(lost+received) when both
fields are defined, 0 when the total is not positive. -/
def lossOfReport (rep : StatsReport) : Option ℚ :=
  match rep.inboundRtp with
  | some ir =>
    match ir.packetsLost, ir.packetsReceived with
    | some lost, some rcvd =>
      let total := lost + rcvd
      some (if total > 0 then lost / total else 0)
    | _, _ => none
  | none => none

/-- The label a single tick computes from its stats report (with the given
thresholds); this is the quality value of checkQuality before the
transition test. -/
def labelOfReport (th : QualityThresholds) (rep : StatsReport) : Quality :=
  determineQuality th (rttOfReport rep) (lossOfReport rep)

/-- One tick of QualityMonitor.checkQuality (qualityMonitor.js lines
935-1033) on a successfully fetched stats report: computes rtt, jitter,
packet loss and bandwidth, replaces this.stats wholesale, and returns the
list of onQualityChange invocations (fired only when the label differs from
the previous one). -/
def checkQuality (th : QualityThresholds) (st : MonitorStats) (rep : StatsReport)
    (now : ℚ) : MonitorStats × List Quality :=
  let rtt := rttOfReport rep
  let jitter : Option ℚ :=
    match rep.inboundRtp with
    | some ir => if jsTruthy ir.jitter then ir.jitter.map (· * 1000) else none
    | none => none
  let packetLoss := lossOfReport rep
  let bandwidth : Option ℚ :=
    match rep.inboundRtp with
    | some ir =>
      if jsTruthy st.timestamp ∧ ir.bytesReceived ≠ none then
        let bytesNow := ir.bytesReceived.getD 0
        let bytesLast := if jsTruthy st.bytesReceived then st.bytesReceived.getD 0 else 0
        let timeElapsed := (now - st.timestamp.getD 0) / 1000
        if timeElapsed > 0 then some ((bytesNow - bytesLast) * 8 / timeElapsed) else none
      else none
    | none => none
  let quality := determineQuality th rtt packetLoss
  let fires := if quality ≠ st.quality then [quality] else []
  ( { rtt := rtt, jitter := jitter, packetLoss := packetLoss, bandwidth := bandwidth
    , bytesReceived := (rep.inboundRtp.map InboundRtp.bytesReceived).join
    , timestamp := some now, quality := quality }
  , fires )

/-- A sequence of monitor ticks, threading this.stats and concatenating the
onQualityChange invocations. -/
def runMonitor (th : QualityThresholds) (st : MonitorStats) :
    List (StatsReport × ℚ) → MonitorStats × List Quality
  | [] => (st, [])
  | (rep, now) :: rest =>
    ( (runMonitor th (checkQuality th st rep now).1 rest).1
    , (checkQuality th st rep now).2 ++ (runMonitor th (checkQuality th st rep now).1 rest).2 )

/-- Tier index a given RTT alone would earn under the default thresholds
(0 = excellent .. 4 = bad).  Stated from the specification wording for the
worst-of-the-two comparison; compare with determineQuality. -/
def specRttRank (r : ℚ) : Nat :=
  if r ≤ 150 then 0 else if r ≤ 300 then 1 else if r ≤ 500 then 2
  else if r ≤ 1000 then 3 else 4

/-- Tier index a given loss fraction alone would earn under the default
thresholds (0 = excellent .. 4 = bad).  Stated from the specification
wording for the worst-of-the-two comparison. -/
def specLossRank (l : ℚ) : Nat :=
  if l ≤ 1/100 then 0 else if l ≤ 3/100 then 1 else if l ≤ 8/100 then 2
  else if l ≤ 15/100 then 3 else 4

/-- Quality label denoted by a tier index. -/
def rankQuality : Nat → Quality
  | 0 => Quality.excellent
  | 1 => Quality.good
  | 2 => Quality.fair
  | 3 => Quality.poor
  | _ => Quality.bad

/-- A concrete stats report: RTT 0.12 s (120 ms) and 1 packet lost out of
200, i.e. loss fraction 0.005, which lands in the excellent tier. -/
def sampleExcellentReport : StatsReport :=
  { candidatePair := some { currentRoundTripTime := some (12/100) }
  , inboundRtp := some { jitter := none, packetsLost := some 1
                       , packetsReceived := some 199, bytesReceived := some 1000 } }

/-- Options of SpeakingDetector (speakingDetector.js, constructor):
threshold in dB, tick interval, and the two hysteresis durations in ms. -/
structure DetOptions where
  threshold : ℚ
  interval : ℚ
  minSpeakingTime : Int
  speakingDecayTime : Int
deriving DecidableEq

/-- Defaults from the SpeakingDetector constructor. -/
def defaultDetOptions : DetOptions :=
  { threshold := -50, interval := 100, minSpeakingTime := 200, speakingDecayTime := 500 }

/-- Mutable state of a SpeakingDetector: the speaking flag and the two
hysteresis timers (null when unset). -/
structure DetState where
  speaking : Bool
  speakingStartTime : Option Int
  silenceStartTime : Option Int
deriving DecidableEq

/-- State of a freshly constructed (or freshly stopped) detector. -/
def coldDetState : DetState :=
  { speaking := false, speakingStartTime := none, silenceStartTime := none }

/-- JS truthiness of a nullable timestamp: null and 0 are falsy. -/
def jsTruthyInt : Option Int → Bool
  | none => false
  | some t => t ≠ 0

/-- One tick of SpeakingDetector.checkSpeaking (speakingDetector.js lines
73-103) at volume volumeLevel and clock now.  Returns the new state and the
onSpeakingChange invocations, tagged with the tick time. -/
def checkSpeaking (o : DetOptions) (s : DetState) (volumeLevel : ℚ) (now : Int) :
    DetState × List (Int × Bool) :=
  if o.threshold < volumeLevel then
    let start := if jsTruthyInt s.speakingStartTime then s.speakingStartTime else some now
    let s1 : DetState := { s with speakingStartTime := start, silenceStartTime := none }
    if s.speaking = false ∧ o.minSpeakingTime ≤ now - start.getD 0 then
      ({ s1 with speaking := true }, [(now, true)])
    else (s1, [])
  else
    let sil := if jsTruthyInt s.silenceStartTime then s.silenceStartTime else some now
    let s1 : DetState := { s with silenceStartTime := sil }
    if s.speaking = true ∧ jsTruthyInt sil = true ∧ o.speakingDecayTime ≤ now - sil.getD 0 then
      ({ s1 with speaking := false, speakingStartTime := none }, [(now, false)])
    else (s1, [])

/-- A sequence of detector ticks (volume, clock) pairs, threading state and
concatenating callback invocations. -/
def runDetector (o : DetOptions) (s : DetState) :
    List (ℚ × Int) → DetState × List (Int × Bool)
  | [] => (s, [])
  | (v, t) :: rest =>
    ( (runDetector o (checkSpeaking o s v t).1 rest).1
    , (checkSpeaking o s v t).2 ++ (runDetector o (checkSpeaking o s v t).1 rest).2 )

/-- A JS error value: its name and message, as inspected by the handlers. -/
structure JsError where
  name : String
  message : String
deriving DecidableEq

/-- The TypeError raised when a null callback is invoked as a function. -/
def typeErrorJs : JsError :=
  { name := "TypeError", message := "is not a function" }

/-- Microphone status values passed to createMicrophoneStatus
(browserDetection.js lines 155-186). -/
inductive MicStatus where
  | requesting
  | granted
  | denied
  | unavailable
  | errorStatus
deriving DecidableEq

/-- Observable side effects of manager operations. -/
inductive Ev where
  | getUserMedia
  | micStatus (ms : MicStatus)
  | errorCb (msg : String)
  | speakingCb (b : Bool)
  | socketEmit (ev : String)
  | socketOff (ev : String)
  | trackStop (id : Nat)
  | pcClose (id : Nat)
  | monitorStop (id : Nat)
  | detectorStop (id : Nat)
  | peerConnectCb (peerId : String)
  | peerDisconnectCb (peerId : String)
  | screenShareCb (b : Bool)
deriving DecidableEq

/-- JS Map.set on an association list: replace in place when the key is
present, else append. -/
def mapSet {α : Type} (m : List (String × α)) (k : String) (v : α) : List (String × α) :=
  if m.any (fun p => p.1 = k) then
    m.map (fun p => if p.1 = k then (k, v) else p)
  else m ++ [(k, v)]

/-- JS Map.get. -/
def mapGet {α : Type} (m : List (String × α)) (k : String) : Option α :=
  (m.find? (fun p => p.1 = k)).map Prod.snd

/-- JS Map.delete. -/
def mapDelete {α : Type} (m : List (String × α)) (k : String) : List (String × α) :=
  m.filter (fun p => p.1 ≠ k)

/-- The underlying RTCPeerConnection object as far as the manager observes
it: its identity and the tracks added to it (by track id). -/
structure RTCPC where
  id : Nat
  tracks : List Nat
deriving DecidableEq

/-- Presence flags for the six recognized constructor callbacks
(webrtcManager.js lines 183-189); each defaults to null when absent. -/
structure Callbacks where
  onPeerConnect : Bool
  onPeerDisconnect : Bool
  onSpeakingChange : Bool
  onAudioQualityChange : Bool
  onError : Bool
  onMicrophoneStatus : Bool
deriving DecidableEq

/-- State of a WebRTCManager (webrtcManager.js constructor, lines 149-194). -/
structure Manager where
  cbs : Callbacks
  socketConnected : Bool
  roomId : Option String
  localStream : Option MediaStream
  peerConnections : List (String × RTCPC)
  audioQualityMonitors : List (String × Nat)
  speakingDetector : Option Nat
  microphoneInitialized : Bool
  microphonePermissionRequested : Bool
  permissionDenied : Bool
  nextId : Nat
deriving DecidableEq

/-- Manager state right after the constructor. -/
def mkManager (cbs : Callbacks) (socketConnected : Bool) : Manager :=
  { cbs := cbs, socketConnected := socketConnected, roomId := none, localStream := none
  , peerConnections := [], audioQualityMonitors := [], speakingDetector := none
  , microphoneInitialized := false, microphonePermissionRequested := false
  , permissionDenied := false, nextId := 0 }

/-- Result of a manager operation: final state, event trace, and normal or
thrown completion. -/
instance exceptDecEq {ε α : Type} [DecidableEq ε] [DecidableEq α] :
    DecidableEq (Except ε α) := fun x y =>
  match x, y with
  | Except.ok a, Except.ok b =>
    if h : a = b then isTrue (by rw [h])
    else isFalse (by intro hh; cases hh; exact h rfl)
  | Except.error a, Except.error b =>
    if h : a = b then isTrue (by rw [h])
    else isFalse (by intro hh; cases hh; exact h rfl)
  | Except.ok _, Except.error _ => isFalse (by intro hh; cases hh)
  | Except.error _, Except.ok _ => isFalse (by intro hh; cases hh)

/-- Result of a manager operation: final state, event trace, and normal or
thrown completion. -/
structure MgrOut (α : Type) where
  st : Manager
  evs : List Ev
  res : Except JsError α
deriving DecidableEq

/-- Guarded callback invocation, the `if (this.onX) this.onX(...)` pattern:
emits the event when the callback is present, does nothing otherwise. -/
def guardCb (present : Bool) (e : Ev) : List Ev :=
  if present then [e] else []

/-- JS truthiness of a nullable string: null and the empty string are falsy. -/
def jsTruthyStr : Option String → Bool
  | none => false
  | some r => r ≠ ""

/-- The message computed by notifyError (webrtcManager.js lines 202-222)
for an Error argument: error.message when nonempty, else its toString
(which degenerates to the error name), else the default. -/
def notifyMessage (e : JsError) (dflt : String) : String :=
  if e.message = "" then (if e.name = "" then dflt else e.name) else e.message

/-- notifyError: logs, invokes onError (guarded) with the computed message,
and returns that message. -/
def notifyError (cbs : Callbacks) (e : JsError) (dflt : String) : List Ev × String :=
  (guardCb cbs.onError (Ev.errorCb (notifyMessage e dflt)), notifyMessage e dflt)

/-- The friendly message mapping of handleUserMediaError (webrtcManager.js
lines 229-255), keyed on the error name. -/
def userMediaErrorMessage (nm : String) : String :=
  if nm = "NotAllowedError" ∨ nm = "PermissionDeniedError" then
    "Microphone access denied. Please allow microphone access in your browser settings."
  else if nm = "NotFoundError" ∨ nm = "DevicesNotFoundError" then
    "No microphone found. Please connect a microphone and try again."
  else if nm = "NotReadableError" ∨ nm = "TrackStartError" then
    "Could not start microphone. It may be in use by another application."
  else if nm = "OverconstrainedError" then
    "Microphone constraints cannot be satisfied. Please try with different settings."
  else if nm = "TypeError" then
    "Invalid audio constraints. Please check your browser compatibility."
  else if nm = "AbortError" then
    "Microphone access request was aborted. Please try again."
  else if nm = "SecurityError" then
    "Microphone access blocked due to security policy. Try using HTTPS."
  else "Failed to access microphone. Please check your permissions."

/-- handleUserMediaError (webrtcManager.js lines 229-259): maps the error
name to a friendly message; on a permission error reports denied status
(guarded) and latches permissionDenied; then notifies onError (guarded) and
returns the friendly message. -/
def handleUserMediaError (s : Manager) (e : JsError) : Manager × List Ev × String :=
  let msg := userMediaErrorMessage e.name
  let s1 := if e.name = "NotAllowedError" ∨ e.name = "PermissionDeniedError" then
    { s with permissionDenied := true } else s
  let evs1 := if e.name = "NotAllowedError" ∨ e.name = "PermissionDeniedError" then
    guardCb s.cbs.onMicrophoneStatus (Ev.micStatus MicStatus.denied) else []
  (s1, evs1 ++ (notifyError s.cbs e msg).1, msg)

/-- The try body of initialize (webrtcManager.js lines 266-339): the
permission-denied short circuit (whose status callback is invoked
unguarded, line 270), else the requesting status (guarded), the basic
getUserMedia request, the enhanced retry with silent fallback (stopping the
basic tracks on success), and the start of a local speaking detector. -/
def innerInit (s : Manager) (roomId : String)
    (basic enhanced : Except JsError MediaStream) : MgrOut Bool :=
  if s.permissionDenied then
    if s.cbs.onMicrophoneStatus then
      { st := s, evs := [Ev.micStatus MicStatus.denied], res := Except.ok false }
    else
      { st := s, evs := [], res := Except.error typeErrorJs }
  else
    let s1 := { s with roomId := some roomId, microphonePermissionRequested := true }
    let evs1 := guardCb s.cbs.onMicrophoneStatus (Ev.micStatus MicStatus.requesting)
    match basic with
    | Except.error e => { st := s1, evs := evs1 ++ [Ev.getUserMedia], res := Except.error e }
    | Except.ok stream =>
      let s2 := { s1 with localStream := some stream, microphoneInitialized := true }
      let evs2 := evs1 ++ [Ev.getUserMedia]
        ++ guardCb s.cbs.onMicrophoneStatus (Ev.micStatus MicStatus.granted)
      let s3 := match enhanced with
        | Except.ok estream => { s2 with localStream := some estream }
        | Except.error _ => s2
      let evs3 := match enhanced with
        | Except.ok _ => evs2 ++ [Ev.getUserMedia] ++ stream.tracks.map (fun t => Ev.trackStop t.id)
        | Except.error _ => evs2 ++ [Ev.getUserMedia]
      { st := { s3 with speakingDetector := some s3.nextId, nextId := s3.nextId + 1 }
      , evs := evs3, res := Except.ok true }

/-- initialize (webrtcManager.js lines 266-345): the try body, with the
catch clause clearing microphoneInitialized, mapping the error through
handleUserMediaError and rethrowing the friendly message as an Error. -/
def initializeManager (s : Manager) (roomId : String)
    (basic enhanced : Except JsError MediaStream) : MgrOut Bool :=
  let o := innerInit s roomId basic enhanced
  match o.res with
  | Except.ok b => { st := o.st, evs := o.evs, res := Except.ok b }
  | Except.error e =>
    let s2 := { o.st with microphoneInitialized := false }
    { st := (handleUserMediaError s2 e).1
    , evs := o.evs ++ (handleUserMediaError s2 e).2.1
    , res := Except.error { name := "Error", message := (handleUserMediaError s2 e).2.2 } }

/-- Unguarded status-then-error callback pair used by every branch of the
retry catch clause: each invocation raises a TypeError when the respective
callback is absent, which escapes the method. -/
def cbPair (s : Manager) (evs : List Ev) (ms : MicStatus) (msg : String) : MgrOut Bool :=
  if s.cbs.onMicrophoneStatus then
    if s.cbs.onError then
      { st := s, evs := evs ++ [Ev.micStatus ms, Ev.errorCb msg], res := Except.ok false }
    else { st := s, evs := evs ++ [Ev.micStatus ms], res := Except.error typeErrorJs }
  else { st := s, evs := evs, res := Except.error typeErrorJs }

/-- The catch clause of retryMicrophoneAccess (webrtcManager.js lines
395-414): permission errors latch permissionDenied first, then every
branch invokes the status and error callbacks unguarded. -/
def retryCatch (s : Manager) (evs : List Ev) (e : JsError) : MgrOut Bool :=
  if e.name = "NotAllowedError" ∨ e.name = "PermissionDeniedError" then
    cbPair { s with permissionDenied := true } evs MicStatus.denied
      "Microphone access denied. Please allow microphone access in your browser settings."
  else if e.name = "NotFoundError" ∨ e.name = "DevicesNotFoundError" then
    cbPair s evs MicStatus.unavailable
      "No microphone found. Please connect a microphone and try again."
  else if e.name = "NotReadableError" ∨ e.name = "TrackStartError" then
    cbPair s evs MicStatus.unavailable
      "Could not access microphone. It may be in use by another application."
  else
    cbPair s evs MicStatus.errorStatus
      (String.append "Microphone error: " (if e.message = "" then "Unknown error" else e.message))

/-- retryMicrophoneAccess (webrtcManager.js lines 351-415): clears the
permissionDenied latch, reports requesting (unguarded, line 357), requests
audio, on success reports granted (unguarded), restarts the speaking
detector, and rejoins the room when connected. -/
def retryMicrophoneAccess (s : Manager) (res : Except JsError MediaStream) : MgrOut Bool :=
  let s1 := { s with permissionDenied := false }
  if s.cbs.onMicrophoneStatus = false then
    retryCatch s1 [] typeErrorJs
  else
    let evs1 := [Ev.micStatus MicStatus.requesting, Ev.getUserMedia]
    match res with
    | Except.error e => retryCatch s1 evs1 e
    | Except.ok stream =>
      let s2 := { s1 with localStream := some stream }
      let evs2 := evs1 ++ [Ev.micStatus MicStatus.granted]
      let evs3 := match s2.speakingDetector with
        | some d => [Ev.detectorStop d]
        | none => []
      let s3 := { s2 with speakingDetector := some s2.nextId, nextId := s2.nextId + 1 }
      let evs4 := if jsTruthyStr s.roomId ∧ s.socketConnected then [Ev.socketEmit "join"] else []
      { st := s3, evs := evs2 ++ evs3 ++ evs4, res := Except.ok true }

/-- createAndSendOffer (webrtcManager.js lines 527-559): emits the offer
over the socket when a connection exists for the peer (failures of the
awaited negotiation calls are caught and reported there, never thrown). -/
def createAndSendOffer (s : Manager) (p : String) : List Ev :=
  match mapGet s.peerConnections p with
  | some _ => [Ev.socketEmit "offer"]
  | none => []

/-- The InvalidAccessError that RTCPeerConnection.addTrack raises when the
connection already holds a sender for the track (the message text is
platform-dependent; one representative is fixed here -- the handlers only
inspect the name). -/
def invalidAccessErrorJs : JsError :=
  { name := "InvalidAccessError", message := "A sender already exists for the track." }

/-- A forEach of addTrack calls: each track is attached in place unless a
sender for it already exists, in which case addTrack throws
InvalidAccessError and the loop aborts, keeping the tracks attached so
far.  Returns the connection as mutated up to the abort and the error, if
any. -/
def addTracksPC (pc : RTCPC) : List Nat → RTCPC × Option JsError
  | [] => (pc, none)
  | tid :: rest =>
    if tid ∈ pc.tracks then (pc, some invalidAccessErrorJs)
    else addTracksPC { pc with tracks := pc.tracks ++ [tid] } rest

/-- createPeerConnection (webrtcManager.js lines 423-520): builds a fresh
RTCPeerConnection, adds every local track (addTrack raising
InvalidAccessError on a track already attached, possible only when the
stream holds the same track twice), installs the handlers, stores the
connection under peerId -- Map.set replaces any previous entry -- and as
initiator creates and sends an offer.  A throw inside is caught: the
error is reported via onError (guarded) and null is returned, the map
untouched since the store at line 504 follows the track loop.  With no
local stream it reports via onError (guarded) and still stores a
connection without tracks. -/
def createPeerConnection (s : Manager) (p : String) (isInitiator : Bool) :
    Manager × List Ev × Option RTCPC :=
  let pc0 : RTCPC := { id := s.nextId, tracks := [] }
  match s.localStream with
  | some stm =>
    match addTracksPC pc0 (stm.tracks.map Track.id) with
    | (pc, none) =>
      let s1 := { s with peerConnections := mapSet s.peerConnections p pc, nextId := s.nextId + 1 }
      let evs1 := if isInitiator then createAndSendOffer s1 p else []
      (s1, evs1, some pc)
    | (_, some _) =>
      ( { s with nextId := s.nextId + 1 }
      , guardCb s.cbs.onError (Ev.errorCb "Failed to create connection. Please try again.")
      , none )
  | none =>
    let evs0 := guardCb s.cbs.onError
      (Ev.errorCb "Microphone not initialized. Please refresh and try again.")
    let s1 := { s with peerConnections := mapSet s.peerConnections p pc0, nextId := s.nextId + 1 }
    let evs1 := if isInitiator then createAndSendOffer s1 p else []
    (s1, evs0 ++ evs1, some pc0)

/-- The room argument of the initialize call inside startCall:
this.roomId || (the string default). -/
def defaultRoom (ro : Option String) : String :=
  match ro with
  | some rr => if rr = "" then "default" else rr
  | none => "default"

/-- startCall (webrtcManager.js lines 712-738): initializes first when no
permission request was ever made, requires an initialized microphone,
creates a connection unconditionally (no check for an existing entry), and
then re-adds every local track at lines 726-728 -- tracks
createPeerConnection already attached, so with any local track present the
first re-add raises InvalidAccessError, aborting before the offer at line
731.  Its catch clause notifies onError (guarded) and rethrows.  When
createPeerConnection returned null (its internal catch fired), the re-add
loop calls addTrack on null, raising a TypeError handled the same way. -/
def startCall (s : Manager) (p : String)
    (basic enhanced : Except JsError MediaStream) : MgrOut RTCPC :=
  let init : Manager × List Ev × Option JsError :=
    if s.microphonePermissionRequested = false then
      let o := initializeManager s (defaultRoom s.roomId) basic enhanced
      match o.res with
      | Except.ok _ => (o.st, o.evs, none)
      | Except.error e => (o.st, o.evs, some e)
    else (s, [], none)
  match init with
  | (s1, evs1, some e) =>
    { st := s1, evs := evs1 ++ (notifyError s1.cbs e "Failed to start call").1
    , res := Except.error e }
  | (s1, evs1, none) =>
    if s1.localStream = none ∨ s1.microphoneInitialized = false then
      let e : JsError :=
        { name := "Error", message := "Microphone not initialized. Please refresh and try again." }
      { st := s1, evs := evs1 ++ (notifyError s1.cbs e "Failed to start call").1
      , res := Except.error e }
    else
      let step := createPeerConnection s1 p true
      match step.2.2 with
      | none =>
        { st := step.1
        , evs := evs1 ++ step.2.1 ++ (notifyError step.1.cbs typeErrorJs "Failed to start call").1
        , res := Except.error typeErrorJs }
      | some pc =>
        let ids := match s1.localStream with
          | some stm => stm.tracks.map Track.id
          | none => []
        match addTracksPC pc ids with
        | (pc2, none) =>
          let s3 := { step.1 with peerConnections := mapSet step.1.peerConnections p pc2 }
          { st := s3, evs := evs1 ++ step.2.1 ++ createAndSendOffer s3 p, res := Except.ok pc2 }
        | (pc2, some err) =>
          let s3 := { step.1 with peerConnections := mapSet step.1.peerConnections p pc2 }
          { st := s3
          , evs := evs1 ++ step.2.1 ++ (notifyError s3.cbs err "Failed to start call").1
          , res := Except.error err }

/-- handleOffer (webrtcManager.js lines 567-608): reuses the existing
connection or creates one -- returning early when the creation came back
null (lines 578-581) -- then answers.  negotiationOk stands for the
awaited setRemoteDescription, createAnswer and setLocalDescription chain;
its failure is caught inside and reported via onError (guarded). -/
def handleOffer (s : Manager) (p : String) (negotiationOk : Bool) : Manager × List Ev :=
  match mapGet s.peerConnections p with
  | some _ =>
    if negotiationOk then (s, [Ev.socketEmit "answer"])
    else (s, guardCb s.cbs.onError
      (Ev.errorCb "Failed to process incoming connection. Please try again."))
  | none =>
    let step := createPeerConnection s p false
    match step.2.2 with
    | none => (step.1, step.2.1)
    | some _ =>
      if negotiationOk then (step.1, step.2.1 ++ [Ev.socketEmit "answer"])
      else (step.1, step.2.1 ++ guardCb step.1.cbs.onError
        (Ev.errorCb "Failed to process incoming connection. Please try again."))

/-- acceptIncomingCall (webrtcManager.js lines 693-705): delegates to
handleOffer, whose internal catch means this method always resolves true. -/
def acceptIncomingCall (s : Manager) (p : String) (negotiationOk : Bool) : MgrOut Bool :=
  { st := (handleOffer s p negotiationOk).1
  , evs := (handleOffer s p negotiationOk).2
  , res := Except.ok true }

/-- handleAnswer (webrtcManager.js lines 616-632, public wrapper 746-749):
applies the answer only when an entry exists (otherwise logs and drops);
application failures are caught and reported via onError (guarded). -/
def handleAnswer (s : Manager) (p : String) (ok : Bool) : Manager × List Ev :=
  match mapGet s.peerConnections p with
  | some _ =>
    (s, if ok then []
        else guardCb s.cbs.onError (Ev.errorCb "Failed to establish connection. Please try again."))
  | none => (s, [])

/-- addIceCandidate (webrtcManager.js lines 640-656, public wrapper
757-760): applies the candidate only when an entry exists; failures are
caught and reported via onError (guarded). -/
def addIceCandidate (s : Manager) (p : String) (ok : Bool) : Manager × List Ev :=
  match mapGet s.peerConnections p with
  | some _ =>
    (s, if ok then []
        else guardCb s.cbs.onError (Ev.errorCb "Failed to establish connection. Please try again."))
  | none => (s, [])

/-- The ontrack handler installed by createPeerConnection (lines 477-501):
when the event carries a stream, creates and starts an AudioQualityMonitor
for the peer, stores it (Map.set), and notifies onPeerConnect (guarded). -/
def remoteTrackEvent (s : Manager) (p : String) (hasStream : Bool) : Manager × List Ev :=
  if hasStream then
    ( { s with
        audioQualityMonitors := mapSet s.audioQualityMonitors p s.nextId
        nextId := s.nextId + 1 }
    , guardCb s.cbs.onPeerConnect (Ev.peerConnectCb p) )
  else (s, [])

/-- cleanupPeerConnection (webrtcManager.js lines 662-685): closes and
removes the connection, then stops and removes its quality monitor. -/
def cleanupPeerConnection (s : Manager) (p : String) : Manager × List Ev :=
  let s1 := match mapGet s.peerConnections p with
    | some _ => { s with peerConnections := mapDelete s.peerConnections p }
    | none => s
  let evs1 := match mapGet s.peerConnections p with
    | some pc => [Ev.pcClose pc.id]
    | none => []
  match mapGet s1.audioQualityMonitors p with
  | some mid =>
    ( { s1 with audioQualityMonitors := mapDelete s1.audioQualityMonitors p }
    , evs1 ++ [Ev.monitorStop mid] )
  | none => (s1, evs1)

/-- The terminal branch of the onconnectionstatechange handler (lines
462-470): disconnected, failed and closed all notify onPeerDisconnect
(guarded) and clean the entry up identically. -/
def connTerminal (s : Manager) (p : String) : Manager × List Ev :=
  ( (cleanupPeerConnection s p).1
  , guardCb s.cbs.onPeerDisconnect (Ev.peerDisconnectCb p) ++ (cleanupPeerConnection s p).2 )

/-- The cleanup loop of leaveRoom over a snapshot of the map keys. -/
def cleanupAll (s : Manager) : List String → Manager × List Ev
  | [] => (s, [])
  | p :: rest =>
    ( (cleanupAll (cleanupPeerConnection s p).1 rest).1
    , (cleanupPeerConnection s p).2 ++ (cleanupAll (cleanupPeerConnection s p).1 rest).2 )

/-- leaveRoom (webrtcManager.js lines 826-855): cleans up every peer
connection, stops the local tracks, stops the speaking detector (errors
swallowed), and resets the session state to its constructor shape. -/
def leaveRoom (s : Manager) : Manager × List Ev :=
  let s1 := (cleanupAll s (s.peerConnections.map Prod.fst)).1
  let evs1 := (cleanupAll s (s.peerConnections.map Prod.fst)).2
  let evs2 := match s1.localStream with
    | some stm => stm.tracks.map (fun t => Ev.trackStop t.id)
    | none => []
  let evs3 := match s1.speakingDetector with
    | some d => [Ev.detectorStop d]
    | none => []
  ( { s1 with
      roomId := none
      localStream := none
      peerConnections := []
      audioQualityMonitors := []
      speakingDetector := none
      microphoneInitialized := false
      microphonePermissionRequested := false
      permissionDenied := false }
  , evs1 ++ evs2 ++ evs3 )

/-- dispose (webrtcManager.js lines 860-875): leaveRoom plus removal of the
six socket subscriptions. -/
def dispose (s : Manager) : Manager × List Ev :=
  ( (leaveRoom s).1
  , (leaveRoom s).2 ++ [Ev.socketOff "userJoined", Ev.socketOff "userLeft",
      Ev.socketOff "offer", Ev.socketOff "answer", Ev.socketOff "iceCandidate",
      Ev.socketOff "speaking"] )

/-- Flip the enabled flag of the first audio track, leaving every other
track untouched: the effect of track.enabled = !track.enabled applied to
getAudioTracks()[0] inside the stream. -/
def flipFirstAudio : List Track → List Track
  | [] => []
  | t :: ts =>
    if t.kind = MediaKind.audio then { t with enabled := !t.enabled } :: ts
    else t :: flipFirstAudio ts

/-- isMuted (webrtcManager.js lines 774-781). -/
def isMuted (s : Manager) : Bool :=
  match s.localStream with
  | none => true
  | some stm =>
    match stm.tracks.filter (fun t => t.kind = MediaKind.audio) with
    | [] => true
    | t :: _ => !t.enabled

/-- toggleMute (webrtcManager.js lines 787-797): returns true and leaves
the state untouched when there is no stream or no audio track, else flips
the enabled flag of the first audio track in place and returns the new muted
status. -/
def toggleMute (s : Manager) : Manager × Bool :=
  match s.localStream with
  | none => (s, true)
  | some stm =>
    match stm.tracks.filter (fun t => t.kind = MediaKind.audio) with
    | [] => (s, true)
    | t :: _ =>
      ({ s with localStream := some { tracks := flipFirstAudio stm.tracks } }, t.enabled)

/-- The externally reachable manager operations, each carrying the platform
responses it consumes. -/
inductive MgrOp where
  | opInit (roomId : String) (basic enhanced : Except JsError MediaStream)
  | opRetry (res : Except JsError MediaStream)
  | opStartCall (p : String) (basic enhanced : Except JsError MediaStream)
  | opAcceptCall (p : String) (negotiationOk : Bool)
  | opHandleAnswer (p : String) (ok : Bool)
  | opAddIce (p : String) (ok : Bool)
  | opRemoteTrack (p : String) (hasStream : Bool)
  | opConnTerminal (p : String)
  | opToggleMute
  | opLeaveRoom
  | opDispose

/-- State transition of one manager operation. -/
def applyOp (s : Manager) : MgrOp → Manager
  | MgrOp.opInit r b e => (initializeManager s r b e).st
  | MgrOp.opRetry r => (retryMicrophoneAccess s r).st
  | MgrOp.opStartCall p b e => (startCall s p b e).st
  | MgrOp.opAcceptCall p ok => (acceptIncomingCall s p ok).st
  | MgrOp.opHandleAnswer p ok => (handleAnswer s p ok).1
  | MgrOp.opAddIce p ok => (addIceCandidate s p ok).1
  | MgrOp.opRemoteTrack p h => (remoteTrackEvent s p h).1
  | MgrOp.opConnTerminal p => (connTerminal s p).1
  | MgrOp.opToggleMute => (toggleMute s).1
  | MgrOp.opLeaveRoom => (leaveRoom s).1
  | MgrOp.opDispose => (dispose s).1

/-- Running a sequence of manager operations. -/
def runOps (s : Manager) : List MgrOp → Manager
  | [] => s
  | op :: rest => runOps (applyOp s op) rest

/-- Keys of an association list are pairwise distinct. -/
def nodupKeys {α : Type} (m : List (String × α)) : Prop :=
  (m.map Prod.fst).Nodup

/-- An RTCRtpSender: its current track, replaceable in place. -/
structure Sender where
  track : Option Track
deriving DecidableEq

/-- A peer connection as the screen-sharing code observes it: its sender
list (getSenders / addTrack / replaceTrack). -/
structure PC7 where
  senders : List Sender
deriving DecidableEq

/-- State of the screen-sharing WebRTCManager variant
(update-webrtc-manager.sh), restricted to the fields its
startScreenSharing and stopScreenSharing read or write. -/
structure ShareState where
  isScreenSharing : Bool
  localScreenStream : Option MediaStream
  localVideoStream : Option MediaStream
  peerConnections : List (String × PC7)
  onScreenSharingChange : Bool
deriving DecidableEq

/-- The predicate of the video-sender search:
sender.track && sender.track.kind === video. -/
def isVideoSender (sn : Sender) : Bool :=
  match sn.track with
  | some t => t.kind = MediaKind.video
  | none => false

/-- senders.find(sender => sender.track && sender.track.kind === video),
as the index of the first matching sender. -/
def findVideoSenderIdx : List Sender → Option Nat
  | [] => none
  | sn :: rest =>
    if isVideoSender sn then some 0 else (findVideoSenderIdx rest).map (· + 1)

/-- The per-connection loop of startScreenSharing: replace the video
sender track in place when one exists, else add the screen track and
renegotiate; with no screen track (getVideoTracks()[0] undefined) the
addTrack call throws a TypeError, aborting the loop with earlier mutations
kept (the catch clause returns false). -/
def shareLoop (scr : Option Track) : List (String × PC7) → List (String × PC7) × List Ev × Bool
  | [] => ([], [], true)
  | (p, pc) :: rest =>
    match findVideoSenderIdx pc.senders with
    | some i =>
      ( (p, { senders := pc.senders.set i { track := scr } }) :: (shareLoop scr rest).1
      , (shareLoop scr rest).2.1
      , (shareLoop scr rest).2.2 )
    | none =>
      match scr with
      | some t =>
        ( (p, { senders := pc.senders ++ [{ track := some t }] }) :: (shareLoop scr rest).1
        , Ev.socketEmit "offer" :: (shareLoop scr rest).2.1
        , (shareLoop scr rest).2.2 )
      | none => ((p, pc) :: rest, [], false)

/-- startScreenSharing (update-webrtc-manager.sh lines 770-828, identical
to screenSharingHelper.js lines 10-68), given the getDisplayMedia result:
already-sharing is a no-op returning true; otherwise the screen stream is
stored, every connection is updated by the loop, and on success the ended
listener is attached to getVideoTracks()[0] (which throws when the stream
has no video track, making the call return false after the mutations) and
the change callback fires. -/
def startScreenSharing (s : ShareState) (screenStream : MediaStream) :
    ShareState × List Ev × Bool :=
  if s.isScreenSharing then (s, [], true)
  else
    let scr := (screenStream.tracks.filter (fun t => t.kind = MediaKind.video)).head?
    let s1 := { s with localScreenStream := some screenStream, isScreenSharing := true }
    let s2 := { s1 with peerConnections := (shareLoop scr s1.peerConnections).1 }
    if (shareLoop scr s1.peerConnections).2.2 then
      match scr with
      | some _ =>
        ( s2
        , (shareLoop scr s1.peerConnections).2.1
            ++ guardCb s.onScreenSharingChange (Ev.screenShareCb true)
        , true )
      | none => (s2, (shareLoop scr s1.peerConnections).2.1, false)
    else (s2, (shareLoop scr s1.peerConnections).2.1, false)

/-- stopScreenSharing (update-webrtc-manager.sh lines 834-873): a no-op
returning false when not sharing; otherwise stops every screen track,
clears the sharing state, and -- only when a camera stream exists -- puts
the first video track of the camera stream back into every connection that has
a video sender.  A screen-track sender added by startScreenSharing on a
connection that had no video sender is never removed. -/
def stopScreenSharing (s : ShareState) : ShareState × List Ev × Bool :=
  if s.isScreenSharing = false ∨ s.localScreenStream = none then (s, [], false)
  else
    let evs1 := match s.localScreenStream with
      | some scrStream => scrStream.tracks.map (fun t => Ev.trackStop t.id)
      | none => []
    let s1 := { s with localScreenStream := none, isScreenSharing := false }
    let s2 := match s.localVideoStream with
      | some vs =>
        { s1 with
          peerConnections := s1.peerConnections.map (fun pp =>
            match findVideoSenderIdx pp.2.senders,
                (vs.tracks.filter (fun t => t.kind = MediaKind.video)).head? with
            | some i, some vt => (pp.1, { senders := pp.2.senders.set i { track := some vt } })
            | _, _ => pp) }
      | none => s1
    (s2, evs1 ++ guardCb s.onScreenSharingChange (Ev.screenShareCb false), true)

/-- Claim C3: with RTT 120 ms and loss 0.005 the computed label is
excellent; with RTT 400 ms and loss 0.05 it is fair; and in general the
threshold chain realizes the worst-of-the-two rule: the label is the worse
of the tier earned by RTT alone and the tier earned by loss alone. -/
theorem c3_quality_thresholds :
    determineQuality defaultQualityThresholds (some 120) (some (5/1000)) = Quality.excellent ∧
    determineQuality defaultQualityThresholds (some 400) (some (5/100)) = Quality.fair ∧
    ∀ r l : ℚ, determineQuality defaultQualityThresholds (some r) (some l) =
      rankQuality (max (specRttRank r) (specLossRank l)) := by
  refine ⟨by norm_num [determineQuality, defaultQualityThresholds],
          by norm_num [determineQuality, defaultQualityThresholds], ?_⟩
  intro r l
  simp only [determineQuality, defaultQualityThresholds, specRttRank, specLossRank]
  split_ifs <;> simp_all [rankQuality] <;> linarith

/-- Quality of the post-tick stats equals the label computed by the tick. -/
theorem checkQuality_fst_quality (th : QualityThresholds) (st : MonitorStats)
    (rep : StatsReport) (now : ℚ) :
    (checkQuality th st rep now).1.quality = labelOfReport th rep := by
  simp [checkQuality, labelOfReport]

/-- The onQualityChange invocations of one tick: exactly one, with the new
label, when the label differs from this.stats.quality, else none. -/
theorem checkQuality_snd (th : QualityThresholds) (st : MonitorStats)
    (rep : StatsReport) (now : ℚ) :
    (checkQuality th st rep now).2 =
      if labelOfReport th rep = st.quality then [] else [labelOfReport th rep] := by
  by_cases h : determineQuality th (rttOfReport rep) (lossOfReport rep) = st.quality
  · simp [checkQuality, labelOfReport, h]
  · simp [checkQuality, labelOfReport, h]

/-- Claim C4: the quality callback fires exactly on label transitions.  Per
tick it fires exactly when the computed label differs from the previous
label of the previous tick, and over any nonempty run of ticks with one same
label q it fires exactly once with q, or not at all when the monitor was
already at q. -/
theorem c4_quality_callback_on_transition_only :
    (∀ (th : QualityThresholds) (st : MonitorStats) (rep : StatsReport) (now : ℚ),
      (checkQuality th st rep now).2 =
        if labelOfReport th rep = st.quality then [] else [labelOfReport th rep]) ∧
    (∀ (th : QualityThresholds) (st : MonitorStats) (ticks : List (StatsReport × ℚ))
      (q : Quality), ticks ≠ [] → (∀ p ∈ ticks, labelOfReport th p.1 = q) →
      (runMonitor th st ticks).2 = if st.quality = q then [] else [q]) := by
  constructor
  · exact checkQuality_snd
  · intro th st ticks q hne hall
    induction ticks generalizing st with
    | nil => exact absurd rfl hne
    | cons p rest ih =>
      obtain ⟨rep, now⟩ := p
      have hq : labelOfReport th rep = q := hall (rep, now) (List.mem_cons_self _ _)
      have hq1 : (checkQuality th st rep now).1.quality = q := by
        rw [checkQuality_fst_quality, hq]
      cases rest with
      | nil =>
        simp only [runMonitor, checkQuality_snd, hq, List.append_nil]
        by_cases h : st.quality = q
        · simp [h]
        · simp [h, Ne.symm h]
      | cons p2 rest2 =>
        have ih2 := ih (checkQuality th st rep now).1
          (by simp) (fun x hx => hall x (List.mem_cons_of_mem _ hx))
        rw [hq1, if_pos rfl] at ih2
        simp only [runMonitor] at ih2 ⊢
        rw [checkQuality_snd, hq, ih2, List.append_nil]
        by_cases h : st.quality = q
        · simp [h]
        · simp [h, Ne.symm h]

/-- Witness for C4: three identical ticks whose label is excellent, started
from the initial (unknown) stats, fire the callback exactly once. -/
theorem c4_witness :
    (runMonitor defaultQualityThresholds initialMonitorStats
      [(sampleExcellentReport, 1000), (sampleExcellentReport, 2000),
       (sampleExcellentReport, 3000)]).2 = [Quality.excellent] := by
  have hl : labelOfReport defaultQualityThresholds sampleExcellentReport = Quality.excellent := by
    norm_num [labelOfReport, determineQuality, rttOfReport, lossOfReport, jsTruthy,
      sampleExcellentReport, defaultQualityThresholds]
  have h := c4_quality_callback_on_transition_only.2 defaultQualityThresholds
    initialMonitorStats
    [(sampleExcellentReport, 1000), (sampleExcellentReport, 2000),
     (sampleExcellentReport, 3000)] Quality.excellent (by simp)
    (by intro p hp; simp only [List.mem_cons, List.not_mem_nil, or_false] at hp
        rcases hp with rfl | rfl | rfl <;> simpa using hl)
  simpa [initialMonitorStats] using h

/-- Above-threshold ticks leave a detector that is already speaking (with a
nonzero start timer and no silence timer) unchanged and silent. -/
theorem runDetector_speaking_stable (o : DetOptions) (a : Int) (ha : a ≠ 0)
    (ticks : List (ℚ × Int)) (hab : ∀ p ∈ ticks, o.threshold < p.1) :
    runDetector o ⟨true, some a, none⟩ ticks = (⟨true, some a, none⟩, []) := by
  induction ticks with
  | nil => rfl
  | cons p rest ih =>
    obtain ⟨v, t⟩ := p
    have hv : o.threshold < v := hab (v, t) (List.mem_cons_self _ _)
    have hstep : checkSpeaking o ⟨true, some a, none⟩ v t = (⟨true, some a, none⟩, []) := by
      simp [checkSpeaking, hv, jsTruthyInt, ha]
    simp [runDetector, hstep, ih (fun x hx => hab x (List.mem_cons_of_mem _ hx))]

/-- From a non-speaking state whose start timer is already running (value a,
nonzero), above-threshold ticks fire exactly one speaking=true transition,
at the first tick whose clock has advanced minSpeakingTime past a. -/
theorem runDetector_warm_above (o : DetOptions) (a : Int) (ha : a ≠ 0)
    (ticks : List (ℚ × Int)) (hab : ∀ p ∈ ticks, o.threshold < p.1) :
    (runDetector o ⟨false, some a, none⟩ ticks).2 =
      match ticks.find? (fun p => o.minSpeakingTime ≤ p.2 - a) with
      | some p => [(p.2, true)]
      | none => [] := by
  induction ticks with
  | nil => rfl
  | cons p rest ih =>
    obtain ⟨v, t⟩ := p
    have hv : o.threshold < v := hab (v, t) (List.mem_cons_self _ _)
    by_cases hfire : o.minSpeakingTime ≤ t - a
    · have hstep : checkSpeaking o ⟨false, some a, none⟩ v t =
          (⟨true, some a, none⟩, [(t, true)]) := by
        simp [checkSpeaking, hv, jsTruthyInt, ha, hfire]
      have hrest := runDetector_speaking_stable o a ha rest
        (fun x hx => hab x (List.mem_cons_of_mem _ hx))
      rw [List.find?_cons_of_pos _ (by simpa using hfire)]
      simp [runDetector, hstep, hrest]
    · have hstep : checkSpeaking o ⟨false, some a, none⟩ v t =
          (⟨false, some a, none⟩, []) := by
        simp [checkSpeaking, hv, jsTruthyInt, ha, hfire]
      rw [List.find?_cons_of_neg _ (by simpa using hfire)]
      simp [runDetector, hstep, ih (fun x hx => hab x (List.mem_cons_of_mem _ hx))]

/-- Claim C5: from a cold detector, a run of ticks all above the default
threshold fires no transition while every tick clock stays within
minSpeakingTime (200 ms) of the first tick clock t0, and fires exactly one
speaking=true transition at the first tick whose clock reaches t0 + 200,
and not earlier.  (t0 is nonzero, as Date.now() values are.) -/
theorem c5_speaking_hysteresis :
    ∀ (v0 : ℚ) (t0 : Int) (rest : List (ℚ × Int)),
      t0 ≠ 0 →
      defaultDetOptions.threshold < v0 →
      (∀ p ∈ rest, defaultDetOptions.threshold < p.1) →
      (runDetector defaultDetOptions coldDetState ((v0, t0) :: rest)).2 =
        match ((v0, t0) :: rest).find?
            (fun p => defaultDetOptions.minSpeakingTime ≤ p.2 - t0) with
        | some p => [(p.2, true)]
        | none => [] := by
  intro v0 t0 rest ht0 hv0 hrest
  have hv0q : (-50 : ℚ) < v0 := by simpa [defaultDetOptions] using hv0
  have hstep : checkSpeaking defaultDetOptions coldDetState v0 t0 =
      (⟨false, some t0, none⟩, []) := by
    simp [checkSpeaking, coldDetState, hv0q, jsTruthyInt, defaultDetOptions]
  rw [List.find?_cons_of_neg _ (by simp [defaultDetOptions])]
  have hwarm := runDetector_warm_above defaultDetOptions t0 ht0 rest hrest
  simp [runDetector, hstep, hwarm]

/-- Witness for C5: four above-threshold ticks 100 ms apart starting at
clock 1000 fire exactly one speaking=true transition, at clock 1200 (the
first tick 200 ms after the first), and none earlier. -/
theorem c5_witness :
    (runDetector defaultDetOptions coldDetState
      [(-40, 1000), (-40, 1100), (-40, 1200), (-40, 1300)]).2 = [(1200, true)] := by
  have h := c5_speaking_hysteresis (-40) 1000 [(-40, 1100), (-40, 1200), (-40, 1300)]
    (by decide) (by norm_num [defaultDetOptions])
    (by intro p hp; simp only [List.mem_cons, List.not_mem_nil, or_false] at hp
        rcases hp with rfl | rfl | rfl <;> norm_num [defaultDetOptions])
  simpa [List.find?, defaultDetOptions] using h

/-- The first audio track found by getAudioTracks()[0] sits at a unique
position: the tracks decompose into an audio-free prefix, that track, and
a suffix, and flipFirstAudio flips exactly its enabled flag. -/
theorem flipFirstAudio_decomp (ts : List Track) (t : Track) (rest : List Track)
    (h : ts.filter (fun x => x.kind = MediaKind.audio) = t :: rest) :
    ∃ pre post, ts = pre ++ t :: post ∧ (∀ x ∈ pre, x.kind ≠ MediaKind.audio) ∧
      flipFirstAudio ts = pre ++ { t with enabled := !t.enabled } :: post := by
  induction ts with
  | nil => simp at h
  | cons a ts2 ih =>
    by_cases ha : a.kind = MediaKind.audio
    · rw [List.filter_cons_of_pos (by simpa using ha)] at h
      injection h with h1 h2
      subst h1
      exact ⟨[], ts2, by simp, by simp, by simp [flipFirstAudio, ha]⟩
    · rw [List.filter_cons_of_neg (by simpa using ha)] at h
      obtain ⟨pre, post, hts, hpre, hflip⟩ := ih h
      refine ⟨a :: pre, post, by simp [hts], ?_, by simp [flipFirstAudio, ha, hflip]⟩
      intro x hx
      rcases List.mem_cons.mp hx with rfl | hx2
      · simpa using ha
      · exact hpre x hx2

/-- Claim C10: with no local stream or no audio track, isMuted and
toggleMute both report muted (true) without throwing and without touching
the state; with a first audio track t, isMuted reports the negation of its
enabled flag and toggleMute flips exactly that flag (every other track and
every other manager field untouched) and returns the new muted status. -/
theorem c10_mute_safety : ∀ s : Manager,
    ((s.localStream = none ∨ (∃ stm, s.localStream = some stm ∧
        stm.tracks.filter (fun x => x.kind = MediaKind.audio) = [])) →
      isMuted s = true ∧ toggleMute s = (s, true)) ∧
    (∀ stm t rest, s.localStream = some stm →
      stm.tracks.filter (fun x => x.kind = MediaKind.audio) = t :: rest →
      isMuted s = !t.enabled ∧
      toggleMute s =
        ({ s with localStream := some { tracks := flipFirstAudio stm.tracks } }, t.enabled) ∧
      ∃ pre post, stm.tracks = pre ++ t :: post ∧
        (∀ x ∈ pre, x.kind ≠ MediaKind.audio) ∧
        flipFirstAudio stm.tracks = pre ++ { t with enabled := !t.enabled } :: post) := by
  intro s
  constructor
  · rintro (h | ⟨stm, hs, hf⟩)
    · simp [isMuted, toggleMute, h]
    · simp [isMuted, toggleMute, hs, hf]
  · intro stm t rest hs hf
    exact ⟨by simp [isMuted, hs, hf], by simp [toggleMute, hs, hf],
      flipFirstAudio_decomp stm.tracks t rest hf⟩

/-- Witness for C10: a manager with no stream reports muted, and a manager
with one enabled audio track toggles to disabled and reports muted. -/
theorem c10_witness :
    isMuted (mkManager ⟨false, false, false, false, false, false⟩ true) = true ∧
    toggleMute { mkManager ⟨false, false, false, false, false, false⟩ true with
        localStream := some { tracks := [{ id := 7, kind := MediaKind.audio, enabled := true }] } }
      = ( { mkManager ⟨false, false, false, false, false, false⟩ true with
            localStream := some { tracks := [{ id := 7, kind := MediaKind.audio, enabled := false }] } }
        , true ) := by
  constructor
  · exact ((c10_mute_safety _).1 (Or.inl rfl)).1
  · have h := (c10_mute_safety
      { mkManager ⟨false, false, false, false, false, false⟩ true with
        localStream := some { tracks := [{ id := 7, kind := MediaKind.audio, enabled := true }] } }).2
      { tracks := [{ id := 7, kind := MediaKind.audio, enabled := true }] }
      { id := 7, kind := MediaKind.audio, enabled := true } [] rfl (by decide)
    simpa [flipFirstAudio] using h.2.1

/-- A manager already in the post-leaveRoom shape is a fixed point of
leaveRoom, with an empty event trace. -/
theorem leaveRoom_reset (t : Manager)
    (h1 : t.peerConnections = []) (h2 : t.localStream = none)
    (h3 : t.speakingDetector = none) (h4 : t.roomId = none)
    (h5 : t.audioQualityMonitors = []) (h6 : t.microphoneInitialized = false)
    (h7 : t.microphonePermissionRequested = false) (h8 : t.permissionDenied = false) :
    leaveRoom t = (t, []) := by
  cases t
  simp_all [leaveRoom, cleanupAll]

/-- Claim C8: leaveRoom is idempotent.  The second of two consecutive calls
performs no side effect at all (its event trace is empty, so no track is
stopped twice and no connection is closed twice -- and the model throws
nothing, matching the swallowed cleanup errors) and leaves the state
exactly as the first call left it. -/
theorem c8_leaveRoom_idempotent :
    ∀ s : Manager, leaveRoom (leaveRoom s).1 = ((leaveRoom s).1, []) := by
  intro s
  apply leaveRoom_reset <;> simp [leaveRoom]

/-- Map.set preserves distinctness of keys: replacement keeps the key list
unchanged, insertion appends a key that was absent. -/
theorem nodupKeys_mapSet {α : Type} {m : List (String × α)} (k : String) (v : α)
    (h : nodupKeys m) : nodupKeys (mapSet m k v) := by
  unfold nodupKeys mapSet at *
  by_cases hany : m.any (fun p => p.1 = k)
  · rw [if_pos hany, List.map_map]
    have hcomp : Prod.fst ∘ (fun p : String × α => if p.1 = k then (k, v) else p) = Prod.fst := by
      funext p
      by_cases hpk : p.1 = k <;> simp [hpk]
    rw [hcomp]
    exact h
  · rw [if_neg hany, List.map_append]
    refine List.Nodup.append h (by simp) ?_
    intro a ha hb
    simp only [List.map_cons, List.map_nil, List.mem_singleton] at hb
    subst hb
    rw [List.mem_map] at ha
    obtain ⟨p, hp, hpa⟩ := ha
    simp only [List.any_eq_true, decide_eq_true_eq] at hany
    exact hany ⟨p, hp, hpa⟩

/-- Map.delete preserves distinctness of keys. -/
theorem nodupKeys_mapDelete {α : Type} {m : List (String × α)} (k : String)
    (h : nodupKeys m) : nodupKeys (mapDelete m k) :=
  List.Nodup.sublist (List.Sublist.map Prod.fst (List.filter_sublist m)) h

/-- The try body of initialize never touches the two per-peer maps. -/
theorem innerInit_maps (s : Manager) (r : String) (b e : Except JsError MediaStream) :
    (innerInit s r b e).st.peerConnections = s.peerConnections ∧
    (innerInit s r b e).st.audioQualityMonitors = s.audioQualityMonitors := by
  unfold innerInit
  by_cases hp : s.permissionDenied
  · by_cases hm : s.cbs.onMicrophoneStatus <;> simp [hp, hm]
  · cases b with
    | error e0 => simp [hp]
    | ok stream =>
      cases e with
      | ok estream => simp [hp]
      | error e1 => simp [hp]

/-- handleUserMediaError never touches the two per-peer maps. -/
theorem handleUserMediaError_maps (s : Manager) (e : JsError) :
    (handleUserMediaError s e).1.peerConnections = s.peerConnections ∧
    (handleUserMediaError s e).1.audioQualityMonitors = s.audioQualityMonitors := by
  by_cases h : e.name = "NotAllowedError" ∨ e.name = "PermissionDeniedError" <;>
    simp [handleUserMediaError, h]

/-- initialize never touches the two per-peer maps. -/
theorem initializeManager_maps (s : Manager) (r : String) (b e : Except JsError MediaStream) :
    (initializeManager s r b e).st.peerConnections = s.peerConnections ∧
    (initializeManager s r b e).st.audioQualityMonitors = s.audioQualityMonitors := by
  obtain ⟨h1, h2⟩ := innerInit_maps s r b e
  simp only [initializeManager]
  cases hres : (innerInit s r b e).res with
  | ok bb => simp [h1, h2]
  | error err =>
    obtain ⟨g1, g2⟩ := handleUserMediaError_maps
      { (innerInit s r b e).st with microphoneInitialized := false } err
    simp only at g1 g2
    rw [h1, h2] at g1 g2
    rw [h1, h2]
    exact ⟨g1, g2⟩

/-- cbPair returns its state argument untouched. -/
theorem cbPair_st (s : Manager) (evs : List Ev) (ms : MicStatus) (msg : String) :
    (cbPair s evs ms msg).st = s := by
  unfold cbPair
  split_ifs <;> rfl

/-- The retry catch clause never touches the two per-peer maps. -/
theorem retryCatch_maps (s : Manager) (evs : List Ev) (e : JsError) :
    (retryCatch s evs e).st.peerConnections = s.peerConnections ∧
    (retryCatch s evs e).st.audioQualityMonitors = s.audioQualityMonitors := by
  unfold retryCatch
  split_ifs <;> simp [cbPair_st]

/-- retryMicrophoneAccess never touches the two per-peer maps. -/
theorem retryMicrophoneAccess_maps (s : Manager) (res : Except JsError MediaStream) :
    (retryMicrophoneAccess s res).st.peerConnections = s.peerConnections ∧
    (retryMicrophoneAccess s res).st.audioQualityMonitors = s.audioQualityMonitors := by
  unfold retryMicrophoneAccess
  by_cases hm : s.cbs.onMicrophoneStatus = false
  · obtain ⟨a, b⟩ := retryCatch_maps { s with permissionDenied := false } [] typeErrorJs
    simp only at a b
    simp [hm, a, b]
  · cases res with
    | error e0 =>
      obtain ⟨a, b⟩ := retryCatch_maps { s with permissionDenied := false }
        [Ev.micStatus MicStatus.requesting, Ev.getUserMedia] e0
      simp only at a b
      simp [hm, a, b]
    | ok stream => simp [hm]

/-- createPeerConnection stores the fresh connection with Map.set and does
not touch the monitor map, so both key lists stay duplicate-free. -/
theorem createPeerConnection_nodup (s : Manager) (p : String) (i : Bool)
    (h1 : nodupKeys s.peerConnections) (h2 : nodupKeys s.audioQualityMonitors) :
    nodupKeys (createPeerConnection s p i).1.peerConnections ∧
    nodupKeys (createPeerConnection s p i).1.audioQualityMonitors := by
  constructor
  · unfold createPeerConnection
    dsimp only
    split
    · split
      · exact nodupKeys_mapSet p _ h1
      · exact h1
    · exact nodupKeys_mapSet p _ h1
  · unfold createPeerConnection
    dsimp only
    split
    · split
      · exact h2
      · exact h2
    · exact h2

/-- startCall keeps both key lists duplicate-free on every path. -/
theorem startCall_nodup (s : Manager) (p : String) (b e : Except JsError MediaStream)
    (h1 : nodupKeys s.peerConnections) (h2 : nodupKeys s.audioQualityMonitors) :
    nodupKeys (startCall s p b e).st.peerConnections ∧
    nodupKeys (startCall s p b e).st.audioQualityMonitors := by
  obtain ⟨m1, m2⟩ := initializeManager_maps s (defaultRoom s.roomId) b e
  unfold startCall
  by_cases hmp : s.microphonePermissionRequested = false
  · simp only [hmp, if_true]
    cases hres : (initializeManager s (defaultRoom s.roomId) b e).res with
    | error err =>
      simp only [hres]
      exact ⟨m1 ▸ h1, m2 ▸ h2⟩
    | ok bb =>
      simp only [hres]
      by_cases hls : (initializeManager s (defaultRoom s.roomId) b e).st.localStream = none ∨
          (initializeManager s (defaultRoom s.roomId) b e).st.microphoneInitialized = false
      · simp only [hls, if_true]
        exact ⟨m1 ▸ h1, m2 ▸ h2⟩
      · simp only [hls, if_false]
        have hcp := createPeerConnection_nodup
          (initializeManager s (defaultRoom s.roomId) b e).st p true (m1 ▸ h1) (m2 ▸ h2)
        split
        · exact hcp
        · split
          · exact ⟨nodupKeys_mapSet p _ hcp.1, hcp.2⟩
          · exact ⟨nodupKeys_mapSet p _ hcp.1, hcp.2⟩
  · rw [if_neg hmp]
    dsimp only
    by_cases hls : s.localStream = none ∨ s.microphoneInitialized = false
    · rw [if_pos hls]
      exact ⟨h1, h2⟩
    · rw [if_neg hls]
      have hcp := createPeerConnection_nodup s p true h1 h2
      split
      · exact hcp
      · split
        · exact ⟨nodupKeys_mapSet p _ hcp.1, hcp.2⟩
        · exact ⟨nodupKeys_mapSet p _ hcp.1, hcp.2⟩

/-- handleOffer keeps both key lists duplicate-free. -/
theorem handleOffer_nodup (s : Manager) (p : String) (ok : Bool)
    (h1 : nodupKeys s.peerConnections) (h2 : nodupKeys s.audioQualityMonitors) :
    nodupKeys (handleOffer s p ok).1.peerConnections ∧
    nodupKeys (handleOffer s p ok).1.audioQualityMonitors := by
  unfold handleOffer
  cases hg : mapGet s.peerConnections p with
  | some pc =>
    simp only [hg]
    split_ifs <;> exact ⟨h1, h2⟩
  | none =>
    simp only [hg]
    have hcp := createPeerConnection_nodup s p false h1 h2
    split
    · exact hcp
    · split_ifs <;> exact hcp

/-- handleAnswer returns the state untouched. -/
theorem handleAnswer_st (s : Manager) (p : String) (ok : Bool) :
    (handleAnswer s p ok).1 = s := by
  unfold handleAnswer
  cases mapGet s.peerConnections p <;> rfl

/-- addIceCandidate returns the state untouched. -/
theorem addIceCandidate_st (s : Manager) (p : String) (ok : Bool) :
    (addIceCandidate s p ok).1 = s := by
  unfold addIceCandidate
  cases mapGet s.peerConnections p <;> rfl

/-- The ontrack handler stores the monitor with Map.set and leaves the
connection map alone. -/
theorem remoteTrackEvent_nodup (s : Manager) (p : String) (hs : Bool)
    (h1 : nodupKeys s.peerConnections) (h2 : nodupKeys s.audioQualityMonitors) :
    nodupKeys (remoteTrackEvent s p hs).1.peerConnections ∧
    nodupKeys (remoteTrackEvent s p hs).1.audioQualityMonitors := by
  unfold remoteTrackEvent
  by_cases h : hs
  · simp only [h, if_true]
    exact ⟨h1, nodupKeys_mapSet p _ h2⟩
  · simp only [h, if_false]
    exact ⟨h1, h2⟩

/-- cleanupPeerConnection deletes from both maps, preserving key
distinctness. -/
theorem cleanupPeerConnection_nodup (s : Manager) (p : String)
    (h1 : nodupKeys s.peerConnections) (h2 : nodupKeys s.audioQualityMonitors) :
    nodupKeys (cleanupPeerConnection s p).1.peerConnections ∧
    nodupKeys (cleanupPeerConnection s p).1.audioQualityMonitors := by
  unfold cleanupPeerConnection
  dsimp only
  split <;> split <;>
    exact ⟨by first
        | exact h1
        | exact nodupKeys_mapDelete p h1,
      by first
        | exact h2
        | exact nodupKeys_mapDelete p h2⟩

/-- connTerminal preserves key distinctness (it only cleans up). -/
theorem connTerminal_nodup (s : Manager) (p : String)
    (h1 : nodupKeys s.peerConnections) (h2 : nodupKeys s.audioQualityMonitors) :
    nodupKeys (connTerminal s p).1.peerConnections ∧
    nodupKeys (connTerminal s p).1.audioQualityMonitors := by
  unfold connTerminal
  exact cleanupPeerConnection_nodup s p h1 h2

/-- leaveRoom empties both maps. -/
theorem leaveRoom_maps (s : Manager) :
    (leaveRoom s).1.peerConnections = [] ∧ (leaveRoom s).1.audioQualityMonitors = [] := by
  simp [leaveRoom]

/-- dispose empties both maps (Claim C1, second half). -/
theorem dispose_maps (s : Manager) :
    (dispose s).1.peerConnections = [] ∧ (dispose s).1.audioQualityMonitors = [] := by
  simp [dispose, leaveRoom]

/-- toggleMute never touches the two per-peer maps. -/
theorem toggleMute_maps (s : Manager) :
    (toggleMute s).1.peerConnections = s.peerConnections ∧
    (toggleMute s).1.audioQualityMonitors = s.audioQualityMonitors := by
  unfold toggleMute
  cases hs : s.localStream with
  | none => simp
  | some stm =>
    cases hf : stm.tracks.filter (fun x => x.kind = MediaKind.audio) with
    | nil => simp [hf]
    | cons t rest => simp [hf]

/-- Every single operation preserves duplicate-free keys in both maps. -/
theorem applyOp_nodup (s : Manager) (op : MgrOp)
    (h1 : nodupKeys s.peerConnections) (h2 : nodupKeys s.audioQualityMonitors) :
    nodupKeys (applyOp s op).peerConnections ∧
    nodupKeys (applyOp s op).audioQualityMonitors := by
  cases op with
  | opInit r b e =>
    obtain ⟨a, b2⟩ := initializeManager_maps s r b e
    exact ⟨a ▸ h1, b2 ▸ h2⟩
  | opRetry r =>
    obtain ⟨a, b2⟩ := retryMicrophoneAccess_maps s r
    exact ⟨a ▸ h1, b2 ▸ h2⟩
  | opStartCall p b e => exact startCall_nodup s p b e h1 h2
  | opAcceptCall p ok =>
    have := handleOffer_nodup s p ok h1 h2
    simpa [applyOp, acceptIncomingCall] using this
  | opHandleAnswer p ok =>
    simp only [applyOp, handleAnswer_st]
    exact ⟨h1, h2⟩
  | opAddIce p ok =>
    simp only [applyOp, addIceCandidate_st]
    exact ⟨h1, h2⟩
  | opRemoteTrack p hs => exact remoteTrackEvent_nodup s p hs h1 h2
  | opConnTerminal p => exact connTerminal_nodup s p h1 h2
  | opToggleMute =>
    obtain ⟨a, b2⟩ := toggleMute_maps s
    exact ⟨a ▸ h1, b2 ▸ h2⟩
  | opLeaveRoom =>
    obtain ⟨a, b2⟩ := leaveRoom_maps s
    simp only [applyOp]
    rw [a, b2]
    exact ⟨List.nodup_nil, List.nodup_nil⟩
  | opDispose =>
    obtain ⟨a, b2⟩ := dispose_maps s
    simp only [applyOp]
    rw [a, b2]
    exact ⟨List.nodup_nil, List.nodup_nil⟩

/-- Any operation sequence preserves duplicate-free keys in both maps. -/
theorem runOps_nodup (s : Manager) (ops : List MgrOp)
    (h1 : nodupKeys s.peerConnections) (h2 : nodupKeys s.audioQualityMonitors) :
    nodupKeys (runOps s ops).peerConnections ∧
    nodupKeys (runOps s ops).audioQualityMonitors := by
  induction ops generalizing s with
  | nil => exact ⟨h1, h2⟩
  | cons op rest ih =>
    obtain ⟨g1, g2⟩ := applyOp_nodup s op h1 h2
    exact ih (applyOp s op) g1 g2

/-- Claim C1: along every operation sequence from a freshly constructed
manager, the peer-connection map and the quality-monitor map hold at most
one entry per peer identifier (their key lists are duplicate-free), and
immediately after dispose() both maps are empty, whatever the state was. -/
theorem c1_one_entry_per_peer_and_empty_after_dispose :
    (∀ (cbs : Callbacks) (sc : Bool) (ops : List MgrOp),
      nodupKeys (runOps (mkManager cbs sc) ops).peerConnections ∧
      nodupKeys (runOps (mkManager cbs sc) ops).audioQualityMonitors) ∧
    (∀ s : Manager, (dispose s).1.peerConnections = [] ∧
      (dispose s).1.audioQualityMonitors = []) := by
  constructor
  · intro cbs sc ops
    exact runOps_nodup (mkManager cbs sc) ops (by simp [mkManager, nodupKeys])
      (by simp [mkManager, nodupKeys])
  · exact dispose_maps

/-- Claim C6: a permission-denied latch short-circuits initialize.  First
conjunct: with permissionDenied set (and the status callback present, as
the short-circuit invokes it unguarded), initialize reports exactly one
denied status, performs no getUserMedia call (the trace shows none), makes
no state change at all (so every later initialize short-circuits the same
way until a retry resets the latch), and returns false.  Second conjunct:
the latch is established by an initialize whose capture fails with
NotAllowedError, and likewise by such a failure in retryMicrophoneAccess
(whose requesting callback must be present for the capture to be reached). -/
theorem c6_denied_short_circuit :
    ∀ (s : Manager) (r : String) (b e : Except JsError MediaStream) (err : JsError),
      (s.permissionDenied = true → s.cbs.onMicrophoneStatus = true →
        initializeManager s r b e =
          { st := s, evs := [Ev.micStatus MicStatus.denied], res := Except.ok false }) ∧
      (err.name = "NotAllowedError" →
        (initializeManager s r (Except.error err) e).st.permissionDenied = true ∧
        (s.cbs.onMicrophoneStatus = true →
          (retryMicrophoneAccess s (Except.error err)).st.permissionDenied = true)) := by
  intro s r b e err
  constructor
  · intro hp hm
    simp [initializeManager, innerInit, hp, hm]
  · intro hname
    constructor
    · by_cases hp : s.permissionDenied
      · by_cases hm : s.cbs.onMicrophoneStatus
        · simp [initializeManager, innerInit, hp, hm]
        · simp [initializeManager, innerInit, handleUserMediaError, notifyError,
            typeErrorJs, hp, hm, hname]
      · simp [initializeManager, innerInit, handleUserMediaError, notifyError, hp, hname]
    · intro hm
      simp only [retryMicrophoneAccess, hm]
      simp only [Bool.true_eq_false, if_false]
      simp [retryCatch, cbPair_st, hname]

/-- Witness for C6: a concrete denied manager short-circuits with a single
denied status; a fresh manager latches permissionDenied after a
NotAllowedError from initialize and after one from retry. -/
theorem c6_witness :
    initializeManager
      { mkManager ⟨true, true, true, true, true, true⟩ true with permissionDenied := true }
      "lobby" (Except.error { name := "NotAllowedError", message := "denied" })
      (Except.error { name := "NotAllowedError", message := "denied" })
      = { st := { mkManager ⟨true, true, true, true, true, true⟩ true with permissionDenied := true }
        , evs := [Ev.micStatus MicStatus.denied], res := Except.ok false } ∧
    (initializeManager (mkManager ⟨true, true, true, true, true, true⟩ true) "lobby"
      (Except.error { name := "NotAllowedError", message := "denied" })
      (Except.error { name := "NotAllowedError", message := "denied" })).st.permissionDenied = true ∧
    (retryMicrophoneAccess (mkManager ⟨true, true, true, true, true, true⟩ true)
      (Except.error { name := "NotAllowedError", message := "denied" })).st.permissionDenied = true := by
  have h1 := c6_denied_short_circuit
    { mkManager ⟨true, true, true, true, true, true⟩ true with permissionDenied := true }
    "lobby" (Except.error { name := "NotAllowedError", message := "denied" })
    (Except.error { name := "NotAllowedError", message := "denied" })
    { name := "NotAllowedError", message := "denied" }
  have h2 := c6_denied_short_circuit (mkManager ⟨true, true, true, true, true, true⟩ true)
    "lobby" (Except.error { name := "NotAllowedError", message := "denied" })
    (Except.error { name := "NotAllowedError", message := "denied" })
    { name := "NotAllowedError", message := "denied" }
  exact ⟨h1.1 rfl rfl, (h2.2 rfl).1, (h2.2 rfl).2 rfl⟩

/-- Counterexample for C9: with every callback absent, the
permission-denied short-circuit path of initialize throws (the unguarded
onMicrophoneStatus call raises a TypeError which the catch-all rethrows as
an Error), and retryMicrophoneAccess throws a TypeError outright -- so not
every operation tolerates an absent callback. -/
theorem c9_counterexample :
    (initializeManager
      { mkManager ⟨false, false, false, false, false, false⟩ true with permissionDenied := true }
      "lobby" (Except.error { name := "NotAllowedError", message := "denied" })
      (Except.error { name := "NotAllowedError", message := "denied" })).res
      = Except.error (JsError.mk "Error"
        "Invalid audio constraints. Please check your browser compatibility.") ∧
    (retryMicrophoneAccess (mkManager ⟨false, false, false, false, false, false⟩ true)
      (Except.ok { tracks := [] })).res = Except.error typeErrorJs := by
  constructor <;> rfl

/-- Claim C9 (amended): initialize guards every callback on its
non-short-circuit paths, so with permissionDenied clear its outcome is
independent of which callbacks are absent (no throw is caused by an absent
callback); but the permission-denied short-circuit invokes
onMicrophoneStatus unguarded, throwing an Error (via the catch-all mapping
of the TypeError) whenever that callback is absent, and
retryMicrophoneAccess invokes it unguarded too, throwing a TypeError
whenever it is absent, for every platform response. -/
theorem c9_amended_guarded_paths :
    (∀ (s : Manager) (c1 c2 : Callbacks) (r : String) (b e : Except JsError MediaStream),
      s.permissionDenied = false →
      (initializeManager { s with cbs := c1 } r b e).res =
        (initializeManager { s with cbs := c2 } r b e).res) ∧
    (∀ (s : Manager) (r : String) (b e : Except JsError MediaStream),
      s.permissionDenied = true → s.cbs.onMicrophoneStatus = false →
      (initializeManager s r b e).res = Except.error (JsError.mk "Error"
        "Invalid audio constraints. Please check your browser compatibility.")) ∧
    (∀ (s : Manager) (res : Except JsError MediaStream),
      s.cbs.onMicrophoneStatus = false →
      (retryMicrophoneAccess s res).res = Except.error typeErrorJs) := by
  refine ⟨?_, ?_, ?_⟩
  · intro s c1 c2 r b e hp
    cases b with
    | error e0 =>
      by_cases hna : e0.name = "NotAllowedError" ∨ e0.name = "PermissionDeniedError" <;>
        simp [initializeManager, innerInit, handleUserMediaError, notifyError, hp, hna]
    | ok stream =>
      cases e with
      | ok estream => simp [initializeManager, innerInit, hp]
      | error e1 => simp [initializeManager, innerInit, hp]
  · intro s r b e hp hm
    simp [initializeManager, innerInit, handleUserMediaError, notifyError,
      userMediaErrorMessage, typeErrorJs, hp, hm]
  · intro s res hm
    cases res with
    | error e0 =>
      simp [retryMicrophoneAccess, retryCatch, cbPair, typeErrorJs, hm]
    | ok stream =>
      simp [retryMicrophoneAccess, retryCatch, cbPair, typeErrorJs, hm]

/-- Witness for C9 (amended): concrete instances of the three conjuncts. -/
theorem c9_witness :
    (initializeManager
      { mkManager ⟨true, true, true, true, true, true⟩ true with
        cbs := ⟨false, false, false, false, false, false⟩ } "r"
      (Except.ok { tracks := [] }) (Except.ok { tracks := [] })).res =
      (initializeManager
        { mkManager ⟨true, true, true, true, true, true⟩ true with
          cbs := ⟨true, true, true, true, true, true⟩ } "r"
        (Except.ok { tracks := [] }) (Except.ok { tracks := [] })).res ∧
    (initializeManager
      { mkManager ⟨false, false, false, false, false, false⟩ true with permissionDenied := true }
      "r" (Except.ok { tracks := [] }) (Except.ok { tracks := [] })).res =
      Except.error (JsError.mk "Error"
      "Invalid audio constraints. Please check your browser compatibility.") ∧
    (retryMicrophoneAccess (mkManager ⟨false, false, false, false, false, false⟩ true)
      (Except.error { name := "NotFoundError", message := "" })).res =
      Except.error typeErrorJs := by
  refine ⟨?_, ?_, ?_⟩
  · exact c9_amended_guarded_paths.1 (mkManager ⟨true, true, true, true, true, true⟩ true)
      ⟨false, false, false, false, false, false⟩ ⟨true, true, true, true, true, true⟩ "r"
      (Except.ok { tracks := [] }) (Except.ok { tracks := [] }) rfl
  · exact c9_amended_guarded_paths.2.1
      { mkManager ⟨false, false, false, false, false, false⟩ true with permissionDenied := true }
      "r" (Except.ok { tracks := [] }) (Except.ok { tracks := [] }) rfl rfl
  · exact c9_amended_guarded_paths.2.2
      (mkManager ⟨false, false, false, false, false, false⟩ true)
      (Except.error { name := "NotFoundError", message := "" }) rfl

/-- Counterexample for C2: a manager that already holds an entry for peer B
(connection object 0) gets a different entry and a different returned
object from a further startCall(B) -- the call is not a no-op returning the
existing entry. -/
theorem c2_counterexample :
    (startCall
      { cbs := ⟨true, true, true, true, true, true⟩, socketConnected := true
      , roomId := some "room"
      , localStream := some { tracks := [{ id := 5, kind := MediaKind.audio, enabled := true }] }
      , peerConnections := [("B", { id := 0, tracks := [5] })]
      , audioQualityMonitors := [], speakingDetector := some 0
      , microphoneInitialized := true, microphonePermissionRequested := true
      , permissionDenied := false, nextId := 1 }
      "B" (Except.ok { tracks := [] }) (Except.ok { tracks := [] })).res ≠
      Except.ok { id := 0, tracks := [5] } ∧
    mapGet (startCall
      { cbs := ⟨true, true, true, true, true, true⟩, socketConnected := true
      , roomId := some "room"
      , localStream := some { tracks := [{ id := 5, kind := MediaKind.audio, enabled := true }] }
      , peerConnections := [("B", { id := 0, tracks := [5] })]
      , audioQualityMonitors := [], speakingDetector := some 0
      , microphoneInitialized := true, microphonePermissionRequested := true
      , permissionDenied := false, nextId := 1 }
      "B" (Except.ok { tracks := [] }) (Except.ok { tracks := [] })).st.peerConnections "B" ≠
      some { id := 0, tracks := [5] } := by
  constructor <;> decide

/-- Map.set at a key leaves that key mapped to the new value. -/
theorem mapGet_mapSet_self {α : Type} (m : List (String × α)) (k : String) (v : α) :
    mapGet (mapSet m k v) k = some v := by
  unfold mapGet mapSet
  by_cases hany : m.any (fun p => p.1 = k)
  · rw [if_pos hany, List.find?_map]
    have hpred : ((fun p : String × α => decide (p.1 = k)) ∘
        (fun p : String × α => if p.1 = k then (k, v) else p)) =
        fun p : String × α => decide (p.1 = k) := by
      funext p
      by_cases hpk : p.1 = k <;> simp [hpk]
    rw [hpred]
    cases hfind : m.find? (fun p => decide (p.1 = k)) with
    | none =>
      exfalso
      rw [List.find?_eq_none] at hfind
      simp only [List.any_eq_true, decide_eq_true_eq] at hany
      obtain ⟨x, hx, hxk⟩ := hany
      exact hfind x hx (by simpa using hxk)
    | some p0 =>
      have hp0 := List.find?_some hfind
      simp only [decide_eq_true_eq] at hp0
      simp [hp0]
  · rw [if_neg hany]
    have hnone : m.find? (fun p => decide (p.1 = k)) = none := by
      rw [List.find?_eq_none]
      intro x hx
      simp only [List.any_eq_true, decide_eq_true_eq] at hany
      simp only [decide_eq_true_eq]
      intro hxk
      exact hany ⟨x, hx, hxk⟩
    rw [List.find?_append, hnone]
    simp [List.find?]

/-- Map.set on a present key leaves the key list unchanged. -/
theorem mapSet_keys_of_mem {α : Type} (m : List (String × α)) (k : String) (v : α)
    (h : m.any (fun p => p.1 = k) = true) :
    (mapSet m k v).map Prod.fst = m.map Prod.fst := by
  unfold mapSet
  rw [if_pos h, List.map_map]
  have hcomp : Prod.fst ∘ (fun p : String × α => if p.1 = k then (k, v) else p) = Prod.fst := by
    funext p
    by_cases hpk : p.1 = k <;> simp [hpk]
  rw [hcomp]

/-- A key with a Map.get hit satisfies the presence test. -/
theorem mapGet_some_any {α : Type} {m : List (String × α)} {k : String} {x : α}
    (h : mapGet m k = some x) : m.any (fun p => p.1 = k) = true := by
  unfold mapGet at h
  cases hf : m.find? (fun p => decide (p.1 = k)) with
  | none => rw [hf] at h; simp at h
  | some p0 =>
    have hp := List.find?_some hf
    have hmem := List.mem_of_find?_eq_some hf
    simp only [List.any_eq_true, decide_eq_true_eq]
    exact ⟨p0, hmem, by simpa using hp⟩

/-- The presence test is membership in the key list. -/
theorem any_key_iff {α : Type} (m : List (String × α)) (k : String) :
    m.any (fun p => p.1 = k) = true ↔ k ∈ m.map Prod.fst := by
  constructor
  · intro h
    simp only [List.any_eq_true, decide_eq_true_eq] at h
    obtain ⟨x, hx, he⟩ := h
    exact List.mem_map.mpr ⟨x, hx, he⟩
  · intro h
    obtain ⟨x, hx, he⟩ := List.mem_map.mp h
    simp only [List.any_eq_true, decide_eq_true_eq]
    exact ⟨x, hx, he⟩

/-- A forEach of addTrack calls over pairwise distinct tracks, none of
them attached yet, succeeds and appends them all. -/
theorem addTracksPC_fresh : ∀ (ids : List Nat) (pc : RTCPC), ids.Nodup →
    (∀ i ∈ ids, i ∉ pc.tracks) →
    addTracksPC pc ids = ({ pc with tracks := pc.tracks ++ ids }, none)
  | [], pc, _, _ => by simp [addTracksPC]
  | tid :: rest, pc, hnd, hdisj => by
    have hmem : tid ∉ pc.tracks := hdisj tid (List.mem_cons_self _ _)
    have hnd2 : rest.Nodup := (List.nodup_cons.mp hnd).2
    have hni : tid ∉ rest := (List.nodup_cons.mp hnd).1
    have hdisj2 : ∀ i ∈ rest, i ∉ ({ pc with tracks := pc.tracks ++ [tid] } : RTCPC).tracks := by
      intro i hi
      simp only [List.mem_append, List.mem_singleton]
      rintro (h | rfl)
      · exact hdisj i (List.mem_cons_of_mem _ hi) h
      · exact hni hi
    rw [addTracksPC, if_neg hmem, addTracksPC_fresh rest _ hnd2 hdisj2]
    simp

/-- The first addTrack of a track that already has a sender aborts the
loop at once with InvalidAccessError, attaching nothing. -/
theorem addTracksPC_mem_head (pc : RTCPC) (tid : Nat) (rest : List Nat)
    (h : tid ∈ pc.tracks) :
    addTracksPC pc (tid :: rest) = (pc, some invalidAccessErrorJs) := by
  simp [addTracksPC, h]

/-- Claim C2 (amended): a startCall(p) on a ready manager (microphone
initialized, at least one local track, tracks pairwise distinct as in a
real MediaStream) that already holds an entry for p is not a no-op
returning the existing entry.  createPeerConnection creates a fresh
connection object with the local tracks attached and replaces the map
entry for p with it; the re-add loop of startCall then raises
InvalidAccessError on the first track, so the call rejects with that error
and returns no connection, while the fresh single-track-set object -- a
different object from the old entry -- remains stored under p, the key
list unchanged (at most one entry per peer still holds). -/
theorem c2_amended_startCall_replaces_entry :
    ∀ (s : Manager) (p : String) (stm : MediaStream) (pcOld : RTCPC)
      (b e : Except JsError MediaStream),
      s.microphonePermissionRequested = true →
      s.microphoneInitialized = true →
      s.localStream = some stm →
      stm.tracks ≠ [] →
      (stm.tracks.map Track.id).Nodup →
      mapGet s.peerConnections p = some pcOld →
      pcOld.id ≠ s.nextId →
      (startCall s p b e).res = Except.error invalidAccessErrorJs ∧
      mapGet (startCall s p b e).st.peerConnections p =
        some { id := s.nextId, tracks := stm.tracks.map Track.id } ∧
      ({ id := s.nextId, tracks := stm.tracks.map Track.id } : RTCPC) ≠ pcOld ∧
      (startCall s p b e).st.peerConnections.map Prod.fst = s.peerConnections.map Prod.fst := by
  intro s p stm pcOld b e hmp hmi hls hne hnd hget hid
  have hmp2 : ¬ s.microphonePermissionRequested = false := by simp [hmp]
  have hguard : ¬ (s.localStream = none ∨ s.microphoneInitialized = false) := by
    simp [hls, hmi]
  obtain ⟨i0, itl, hids⟩ : ∃ i0 itl, stm.tracks.map Track.id = i0 :: itl := by
    cases hc : stm.tracks.map Track.id with
    | nil => exact absurd (List.map_eq_nil_iff.mp hc) hne
    | cons a l => exact ⟨a, l, rfl⟩
  have h0 : addTracksPC { id := s.nextId, tracks := [] } (stm.tracks.map Track.id) =
      ({ id := s.nextId, tracks := stm.tracks.map Track.id }, none) := by
    have hfr := addTracksPC_fresh (stm.tracks.map Track.id) { id := s.nextId, tracks := [] }
      hnd (by intro i hi; simp)
    simpa using hfr
  have h3 : addTracksPC { id := s.nextId, tracks := stm.tracks.map Track.id }
      (stm.tracks.map Track.id) =
      ({ id := s.nextId, tracks := stm.tracks.map Track.id }, some invalidAccessErrorJs) := by
    rw [hids]
    exact addTracksPC_mem_head _ i0 itl (List.mem_cons_self i0 itl)
  have hst : (startCall s p b e).st =
      { s with
        peerConnections := mapSet (mapSet s.peerConnections p
            { id := s.nextId, tracks := stm.tracks.map Track.id }) p
            { id := s.nextId, tracks := stm.tracks.map Track.id }
        nextId := s.nextId + 1 } := by
    simp [startCall, hmp2, hguard, hmp, hmi, createPeerConnection, hls, h0, h3]
  have hres : (startCall s p b e).res = Except.error invalidAccessErrorJs := by
    simp [startCall, hmp2, hguard, hmp, hmi, createPeerConnection, hls, h0, h3]
  have hany1 : s.peerConnections.any (fun q => q.1 = p) = true := mapGet_some_any hget
  have hkeys1 : (mapSet s.peerConnections p
      { id := s.nextId, tracks := stm.tracks.map Track.id }).map Prod.fst =
      s.peerConnections.map Prod.fst := mapSet_keys_of_mem _ _ _ hany1
  have hany2 : (mapSet s.peerConnections p
      { id := s.nextId, tracks := stm.tracks.map Track.id }).any (fun q => q.1 = p) = true := by
    rw [any_key_iff, hkeys1]
    exact (any_key_iff _ _).mp hany1
  refine ⟨hres, ?_, ?_, ?_⟩
  · rw [hst]
    exact mapGet_mapSet_self _ _ _
  · intro heq
    have hidf : s.nextId = pcOld.id := congrArg RTCPC.id heq
    exact hid hidf.symm
  · rw [hst]
    have hkeys2 := mapSet_keys_of_mem (mapSet s.peerConnections p
      { id := s.nextId, tracks := stm.tracks.map Track.id }) p
      { id := s.nextId, tracks := stm.tracks.map Track.id } hany2
    exact hkeys2.trans hkeys1

/-- Witness for C2 (amended): the concrete manager of the counterexample,
run through the amended statement -- the call rejects with
InvalidAccessError and the entry for B is the fresh connection 1 with the
single local track. -/
theorem c2_witness :
    (startCall
      { cbs := ⟨true, true, true, true, true, true⟩, socketConnected := true
      , roomId := some "room"
      , localStream := some { tracks := [{ id := 5, kind := MediaKind.audio, enabled := true }] }
      , peerConnections := [("B", { id := 0, tracks := [5] })]
      , audioQualityMonitors := [], speakingDetector := some 0
      , microphoneInitialized := true, microphonePermissionRequested := true
      , permissionDenied := false, nextId := 1 }
      "B" (Except.ok { tracks := [] }) (Except.ok { tracks := [] })).res =
      Except.error invalidAccessErrorJs ∧
    mapGet (startCall
      { cbs := ⟨true, true, true, true, true, true⟩, socketConnected := true
      , roomId := some "room"
      , localStream := some { tracks := [{ id := 5, kind := MediaKind.audio, enabled := true }] }
      , peerConnections := [("B", { id := 0, tracks := [5] })]
      , audioQualityMonitors := [], speakingDetector := some 0
      , microphoneInitialized := true, microphonePermissionRequested := true
      , permissionDenied := false, nextId := 1 }
      "B" (Except.ok { tracks := [] }) (Except.ok { tracks := [] })).st.peerConnections "B" =
      some { id := 1, tracks := [5] } := by
  have h := c2_amended_startCall_replaces_entry
    { cbs := ⟨true, true, true, true, true, true⟩, socketConnected := true
    , roomId := some "room"
    , localStream := some { tracks := [{ id := 5, kind := MediaKind.audio, enabled := true }] }
    , peerConnections := [("B", { id := 0, tracks := [5] })]
    , audioQualityMonitors := [], speakingDetector := some 0
    , microphoneInitialized := true, microphonePermissionRequested := true
    , permissionDenied := false, nextId := 1 }
    "B" { tracks := [{ id := 5, kind := MediaKind.audio, enabled := true }] }
    { id := 0, tracks := [5] }
    (Except.ok { tracks := [] }) (Except.ok { tracks := [] })
    rfl rfl rfl (by decide) (by decide) (by decide) (by decide)
  exact ⟨h.1, h.2.1⟩

/-- Counterexample for C7: for a manager whose single peer connection has
only an audio sender (and no camera stream), startScreenSharing adds a
screen-track sender and stopScreenSharing never removes it, so the track
set after the round-trip differs from the one before. -/
theorem c7_counterexample :
    (stopScreenSharing (startScreenSharing
      { isScreenSharing := false, localScreenStream := none, localVideoStream := none
      , peerConnections :=
          [("B", { senders := [{ track := some { id := 1, kind := MediaKind.audio, enabled := true } }] })]
      , onScreenSharingChange := true }
      { tracks := [{ id := 100, kind := MediaKind.video, enabled := true }] }).1).1.peerConnections ≠
      [("B", { senders := [{ track := some { id := 1, kind := MediaKind.audio, enabled := true } }] })] := by
  decide

/-- An element selected by head? of a filter satisfies the filter
predicate. -/
theorem head?_filter_pred {α : Type} (p : α → Bool) (l : List α) (x : α)
    (h : (l.filter p).head? = some x) : p x = true := by
  cases hf : l.filter p with
  | nil => rw [hf] at h; simp at h
  | cons a t =>
    rw [hf] at h
    simp only [List.head?_cons, Option.some.injEq] at h
    have hm : a ∈ l.filter p := by rw [hf]; exact List.mem_cons_self _ _
    rw [← h]
    exact (List.mem_filter.mp hm).2

/-- Writing back the value already stored at an index is the identity. -/
theorem list_set_self {α : Type} : ∀ (l : List α) (i : Nat) (a : α),
    l.get? i = some a → l.set i a = l
  | [], i, a, h => by simp at h
  | b :: t, 0, a, h => by
    simp only [List.get?_cons_zero, Option.some.injEq] at h
    simp [h]
  | b :: t, i + 1, a, h => by
    simp only [List.get?_cons_succ] at h
    simp [list_set_self t i a h]

/-- Replacing the first video sender with another video sender keeps it the
first video sender. -/
theorem findVideoSenderIdx_set (l : List Sender) (i : Nat) (v : Sender)
    (hv : isVideoSender v = true) (h : findVideoSenderIdx l = some i) :
    findVideoSenderIdx (l.set i v) = some i := by
  induction l generalizing i with
  | nil => simp [findVideoSenderIdx] at h
  | cons sn rest ih =>
    by_cases hsn : isVideoSender sn
    · simp only [findVideoSenderIdx, hsn, if_true, Option.some.injEq] at h
      subst h
      simp [List.set, findVideoSenderIdx, hv]
    · cases hj : findVideoSenderIdx rest with
      | none => simp [findVideoSenderIdx, hsn, hj] at h
      | some j =>
        simp [findVideoSenderIdx, hsn, hj] at h
        subst h
        simp [List.set, findVideoSenderIdx, hsn, ih j hj]

/-- A map whose function fixes every element of the list is the identity. -/
theorem list_map_self {α : Type} (l : List α) (f : α → α) (h : ∀ a ∈ l, f a = a) :
    l.map f = l := by
  induction l with
  | nil => rfl
  | cons a t ih =>
    simp [h a (List.mem_cons_self a t), ih (fun x hx => h x (List.mem_cons_of_mem _ hx))]

/-- With a screen track present, the start loop never aborts: every
connection either has its first video sender replaced or gains an appended
screen sender. -/
theorem shareLoop_some (t : Track) (pcs : List (String × PC7)) :
    (shareLoop (some t) pcs).1 = pcs.map (fun pp =>
      match findVideoSenderIdx pp.2.senders with
      | some i => (pp.1, { senders := pp.2.senders.set i { track := some t } })
      | none => (pp.1, { senders := pp.2.senders ++ [{ track := some t }] })) ∧
    (shareLoop (some t) pcs).2.2 = true := by
  induction pcs with
  | nil => exact ⟨rfl, rfl⟩
  | cons pp rest ih =>
    obtain ⟨p, pc⟩ := pp
    cases hfi : findVideoSenderIdx pc.senders with
    | some i => simp [shareLoop, hfi, ih.1, ih.2]
    | none => simp [shareLoop, hfi, ih.1, ih.2]

/-- State after startScreenSharing from a non-sharing manager: the screen
stream is stored, sharing is on, and the connections are the output of
the loop; the other fields are untouched. -/
theorem startScreenSharing_st (s : ShareState) (scrStream : MediaStream)
    (h : s.isScreenSharing = false) :
    (startScreenSharing s scrStream).1 =
      { s with
        localScreenStream := some scrStream
        isScreenSharing := true
        peerConnections := (shareLoop
          ((scrStream.tracks.filter (fun t => t.kind = MediaKind.video)).head?)
          s.peerConnections).1 } := by
  unfold startScreenSharing
  rw [if_neg (by simp [h])]
  dsimp only
  split
  · split <;> rfl
  · rfl

/-- Connections after stopScreenSharing on a sharing manager with a camera
stream: every connection with a video sender has that sender set to the
first video track of the camera stream; the rest stay as they are. -/
theorem stopScreenSharing_pcs (s : ShareState) (vs scrStr : MediaStream)
    (hsh : s.isScreenSharing = true) (hls : s.localScreenStream = some scrStr)
    (hvs : s.localVideoStream = some vs) :
    (stopScreenSharing s).1.peerConnections = s.peerConnections.map (fun pp =>
      match findVideoSenderIdx pp.2.senders,
          (vs.tracks.filter (fun t => t.kind = MediaKind.video)).head? with
      | some i, some vt => (pp.1, { senders := pp.2.senders.set i { track := some vt } })
      | _, _ => pp) := by
  unfold stopScreenSharing
  rw [if_neg (by simp [hsh, hls])]
  simp [hls, hvs]

/-- Claim C7 (amended): the start/stop round-trip restores every peer
connection exactly when, before the round-trip, each connection carried a
video sender holding the camera track (the first video track of the
present camera stream) and the screen stream has a video track: then the
screen track replaces each such sender on start and the camera track is
put back on stop, so the connections (hence their track sets) are equal to
what they were.  When a connection has no video sender (see the
counterexample) the round-trip leaves an extra sender carrying the stopped
screen track instead. -/
theorem c7_screen_share_round_trip :
    ∀ (s : ShareState) (scrStream vs : MediaStream) (camT scrT : Track),
      s.isScreenSharing = false →
      s.localVideoStream = some vs →
      (vs.tracks.filter (fun t => t.kind = MediaKind.video)).head? = some camT →
      (scrStream.tracks.filter (fun t => t.kind = MediaKind.video)).head? = some scrT →
      (∀ pp ∈ s.peerConnections, ∃ i,
        findVideoSenderIdx pp.2.senders = some i ∧
        pp.2.senders.get? i = some { track := some camT }) →
      (stopScreenSharing (startScreenSharing s scrStream).1).1.peerConnections =
        s.peerConnections := by
  intro s scrStream vs camT scrT hshare hvs hcam hscr hall
  have hstA := startScreenSharing_st s scrStream hshare
  have hB := stopScreenSharing_pcs (startScreenSharing s scrStream).1 vs scrStream
    (by rw [hstA]) (by rw [hstA]) (by rw [hstA]; simpa using hvs)
  rw [hB, hstA]
  simp only [hscr]
  rw [(shareLoop_some scrT s.peerConnections).1, List.map_map]
  apply list_map_self
  intro pp hpp
  obtain ⟨i, hi, hsend⟩ := hall pp hpp
  have hscrVid : isVideoSender { track := some scrT } = true := by
    have := head?_filter_pred (fun t => t.kind = MediaKind.video) scrStream.tracks scrT hscr
    simp [isVideoSender]
    simpa using this
  have hstab := findVideoSenderIdx_set pp.2.senders i { track := some scrT } hscrVid hi
  simp only [Function.comp, hi]
  simp only [hstab, hcam]
  rw [List.set_set, list_set_self pp.2.senders i { track := some camT } hsend]

/-- Witness for C7 (amended): one peer connection with an audio sender and
a camera video sender; the screen-share round-trip leaves its sender list
exactly as it was. -/
theorem c7_witness :
    (stopScreenSharing (startScreenSharing
      { isScreenSharing := false, localScreenStream := none
      , localVideoStream := some { tracks := [{ id := 2, kind := MediaKind.video, enabled := true }] }
      , peerConnections :=
          [("B", { senders := [{ track := some { id := 1, kind := MediaKind.audio, enabled := true } },
                               { track := some { id := 2, kind := MediaKind.video, enabled := true } }] })]
      , onScreenSharingChange := true }
      { tracks := [{ id := 100, kind := MediaKind.video, enabled := true }] }).1).1.peerConnections =
      [("B", { senders := [{ track := some { id := 1, kind := MediaKind.audio, enabled := true } },
                           { track := some { id := 2, kind := MediaKind.video, enabled := true } }] })] := by
  exact c7_screen_share_round_trip
    { isScreenSharing := false, localScreenStream := none
    , localVideoStream := some { tracks := [{ id := 2, kind := MediaKind.video, enabled := true }] }
    , peerConnections :=
        [("B", { senders := [{ track := some { id := 1, kind := MediaKind.audio, enabled := true } },
                             { track := some { id := 2, kind := MediaKind.video, enabled := true } }] })]
    , onScreenSharingChange := true }
    { tracks := [{ id := 100, kind := MediaKind.video, enabled := true }] }
    { tracks := [{ id := 2, kind := MediaKind.video, enabled := true }] }
    { id := 2, kind := MediaKind.video, enabled := true }
    { id := 100, kind := MediaKind.video, enabled := true }
    rfl rfl (by decide) (by decide)
    (by
      intro pp hpp
      simp only [List.mem_singleton] at hpp
      subst hpp
      exact ⟨1, by decide, by decide⟩)
